import Mathlib

/-!
Shallow embedding of the robotic-hand control core (plyght/robot) and
verification of its specification claims.

Machine floats (`f32`) are modelled as exact rationals (`ℚ`); machine
integers as `ℕ`/`ℤ` with explicit wrapping or saturation where the source
relies on it.  Transcendental library functions (`sqrt`, `atan2`, `sin`,
`cos`) are foreign math-library calls at the source level and are passed in
as abstract function parameters, so every theorem holds for any
implementation of them.  Fallible operations return `Except`, and stateful
methods thread their receiver explicitly; a method that in Rust mutates
`self` before a fallible call returns the final receiver state alongside
the `Except` result so that state-after-error is observable.
-/

namespace Robot

/-- Error type mirroring `HandError` in `src/error.rs` (the variants the
embedded core can produce). -/
inductive HandError where
  | Communication (msg : String)
  | InvalidJointAngle (joint_id : ℕ) (angle min max : ℚ)
  | InvalidFingerId (id : ℕ)
  | InvalidJointCount (expected actual : ℕ)
  | MotorFailure (joint_id : ℕ) (reason : String)
  deriving Repr, DecidableEq

/-- Rust `f32::clamp(lo, hi)`: below `lo` gives `lo`, above `hi` gives
`hi`, otherwise the value itself. -/
def ratClamp (x lo hi : ℚ) : ℚ :=
  if x < lo then lo else if x > hi then hi else x

/-- Rust `as u16` cast of a (finite) float: truncation toward zero,
saturating at the bounds of `u16`. -/
def f32AsU16 (q : ℚ) : ℕ :=
  if q ≤ 0 then 0 else min (Int.toNat ⌊q⌋) 65535

/-- Rust `as i32` cast of a (finite) float: truncation toward zero,
saturating at the bounds of `i32`. -/
def f32AsI32 (q : ℚ) : ℤ :=
  let t : ℤ := if 0 ≤ q then ⌊q⌋ else -⌊-q⌋
  max (-(2 ^ 31)) (min t (2 ^ 31 - 1))

/-! ## Motor abstraction (`src/hardware/servo.rs`) -/

/-- The `MotorController` bus boundary: `write_pwm(channel, pulse)` either
succeeds or yields an error.  The outcome function abstracts a concrete
bus driver. -/
structure MotorController where
  write_pwm : ℕ → ℕ → Option HandError

/-- Rust `PwmServo` state (`src/hardware/servo.rs`). -/
structure PwmServo where
  channel : ℕ
  current_position : ℚ
  enabled : Bool
  min_angle : ℚ
  max_angle : ℚ
  min_pulse : ℕ
  max_pulse : ℕ
  deriving Repr, DecidableEq

namespace PwmServo

/-- Rust `PwmServo::new`. -/
def new (channel : ℕ) (min_angle max_angle : ℚ) (min_pulse max_pulse : ℕ) : PwmServo :=
  { channel := channel, current_position := 0, enabled := false,
    min_angle := min_angle, max_angle := max_angle,
    min_pulse := min_pulse, max_pulse := max_pulse }

/-- Rust `PwmServo::angle_to_pulse`: `pulse_range` is a wrapping `u16`
subtraction, the float product is cast with `as u16`, and the final `u16`
addition also wraps. -/
def angle_to_pulse (s : PwmServo) (angle : ℚ) : ℕ :=
  let range := s.max_angle - s.min_angle
  let normalized := (angle - s.min_angle) / range
  let pulse_range : ℕ := (s.max_pulse + 65536 - s.min_pulse) % 65536
  (s.min_pulse + f32AsU16 (normalized * (pulse_range : ℚ))) % 65536

/-- Rust `PwmServo::set_position`.  Returns the final servo state, the result,
and the list of `write_pwm(channel, pulse)` calls issued to the bus. -/
def set_position (s : PwmServo) (ctrl : MotorController) (angle : ℚ) :
    PwmServo × Except HandError Unit × List (ℕ × ℕ) :=
  if angle < s.min_angle ∨ angle > s.max_angle then
    (s, .error (.InvalidJointAngle s.channel angle s.min_angle s.max_angle), [])
  else
    let pulse := s.angle_to_pulse angle
    match ctrl.write_pwm s.channel pulse with
    | some e => (s, .error e, [(s.channel, pulse)])
    | none => ({ s with current_position := angle }, .ok (), [(s.channel, pulse)])

/-- Rust `PwmServo::get_position`. -/
def get_position (s : PwmServo) : Except HandError ℚ :=
  .ok s.current_position

end PwmServo

/-- Rust `StepperMotor` state (`src/hardware/servo.rs`). -/
structure StepperMotor where
  id : ℕ
  current_position : ℚ
  enabled : Bool
  min_angle : ℚ
  max_angle : ℚ
  steps_per_revolution : ℕ
  deriving Repr, DecidableEq

namespace StepperMotor

/-- Rust `StepperMotor::set_position`. -/
def set_position (m : StepperMotor) (angle : ℚ) :
    StepperMotor × Except HandError Unit :=
  if angle < m.min_angle ∨ angle > m.max_angle then
    (m, .error (.InvalidJointAngle m.id angle m.min_angle m.max_angle))
  else
    ({ m with current_position := angle }, .ok ())

/-- Rust `StepperMotor::get_position`. -/
def get_position (m : StepperMotor) : Except HandError ℚ :=
  .ok m.current_position

end StepperMotor

/-- Rust `DcMotor` state (`src/hardware/servo.rs`). -/
structure DcMotor where
  id : ℕ
  current_position : ℚ
  enabled : Bool
  min_angle : ℚ
  max_angle : ℚ
  deriving Repr, DecidableEq

namespace DcMotor

/-- Rust `DcMotor::set_position`. -/
def set_position (m : DcMotor) (angle : ℚ) :
    DcMotor × Except HandError Unit :=
  if angle < m.min_angle ∨ angle > m.max_angle then
    (m, .error (.InvalidJointAngle m.id angle m.min_angle m.max_angle))
  else
    ({ m with current_position := angle }, .ok ())

/-- Rust `DcMotor::get_position`. -/
def get_position (m : DcMotor) : Except HandError ℚ :=
  .ok m.current_position

end DcMotor

/-! ## Servo map (`src/hardware/servo_map.rs`) -/

/-- Rust `ServoConfig` (`src/hardware/servo_map.rs`). -/
structure ServoConfig where
  id : ℕ
  inverted : Bool
  min_angle : ℚ
  max_angle : ℚ
  deriving Repr, DecidableEq

namespace ServoConfig

/-- Rust `ServoConfig::new`: default range `0..180`. -/
def new (id : ℕ) (inverted : Bool) : ServoConfig :=
  { id := id, inverted := inverted, min_angle := 0, max_angle := 180 }

/-- Rust `ServoConfig::translate_angle`: clamp to the configured range, then
invert (`180 - clamped`) if the servo mounts reversed. -/
def translate_angle (c : ServoConfig) (angle : ℚ) : ℚ :=
  let clamped := ratClamp angle c.min_angle c.max_angle
  if c.inverted then 180 - clamped else clamped

end ServoConfig

/-! ## EMG trigger state machine (`src/emg/mod.rs`) -/

/-- Rust `EmgState` (`src/emg/mod.rs`). -/
inductive EmgState where
  | Idle
  | Triggered
  | Executing
  deriving Repr, DecidableEq

/-- Rust `EmgReader` state.  Time is modelled as a millisecond counter: the
field `last_trigger` stores the timestamp of the last accepted trigger,
and methods that consult `Instant::elapsed` receive the current time
`now` explicitly. -/
structure EmgReader where
  threshold : ℕ
  debounce_duration : ℕ
  last_trigger : Option ℕ
  state : EmgState
  deriving Repr, DecidableEq

namespace EmgReader

/-- Rust `EmgReader::new` (the fields the core uses): given threshold, debounce
defaults to 200 ms, no trigger recorded, state `Idle`. -/
def new (threshold : ℕ) : EmgReader :=
  { threshold := threshold, debounce_duration := 200,
    last_trigger := none, state := .Idle }

/-- Rust `EmgReader::inject_value` at current time `now`: returns the updated
reader and the boolean result. -/
def inject_value (r : EmgReader) (value : ℕ) (now : ℕ) : EmgReader × Bool :=
  if value ≥ r.threshold ∧ r.state = .Idle then
    match r.last_trigger with
    | some last =>
        if now - last < r.debounce_duration then (r, false)
        else ({ r with state := .Triggered, last_trigger := some now }, true)
    | none => ({ r with state := .Triggered, last_trigger := some now }, true)
  else
    (r, false)

/-- Rust `EmgReader::poll` at current time `now`, with `readValue` the value
delivered by `read_value` for this call (`none` when no complete line is
available).  The debounce logic is identical to `inject_value`. -/
def poll (r : EmgReader) (readValue : Option ℕ) (now : ℕ) : EmgReader × Bool :=
  match readValue with
  | some value => r.inject_value value now
  | none => (r, false)

end EmgReader

/-! ## Grip patterns (`src/vision/grip_patterns.rs`) -/

/-- Rust `GripPatternType`. -/
inductive GripPatternType where
  | PowerGrasp
  | PrecisionGrip
  | PinchGrip
  | LateralGrip
  | TripodGrip
  deriving Repr, DecidableEq

/-- Rust `GripPattern`; the `HashMap<String, Vec<f32>>` of per-finger stage
angles is modelled as an association list in insertion order. -/
structure GripPattern where
  pattern_type : GripPatternType
  finger_angles : List (String × List ℚ)
  wrist_orientation : Option (ℚ × ℚ × ℚ)
  approach_distance : ℚ
  deriving Repr, DecidableEq

namespace GripPattern

/-- Rust `GripPattern::power_grasp`. -/
def power_grasp : GripPattern :=
  { pattern_type := .PowerGrasp,
    finger_angles :=
      [("Thumb", [60, 60, 60]), ("Index", [80, 80, 80]), ("Middle", [80, 80, 80]),
       ("Ring", [80, 80, 80]), ("Pinky", [80, 80, 80])],
    wrist_orientation := some (0, 0, 0),
    approach_distance := 10 }

/-- Rust `GripPattern::precision_grip`. -/
def precision_grip : GripPattern :=
  { pattern_type := .PrecisionGrip,
    finger_angles :=
      [("Thumb", [45, 45, 30]), ("Index", [60, 50, 40]), ("Middle", [60, 50, 40]),
       ("Ring", [10, 10, 10]), ("Pinky", [10, 10, 10])],
    wrist_orientation := some (5, 0, 0),
    approach_distance := 8 }

/-- Rust `GripPattern::pinch_grip`. -/
def pinch_grip : GripPattern :=
  { pattern_type := .PinchGrip,
    finger_angles :=
      [("Thumb", [50, 40, 30]), ("Index", [70, 60, 50]), ("Middle", [20, 20, 20]),
       ("Ring", [10, 10, 10]), ("Pinky", [10, 10, 10])],
    wrist_orientation := some (0, 0, 0),
    approach_distance := 6 }

/-- Rust `GripPattern::lateral_grip`. -/
def lateral_grip : GripPattern :=
  { pattern_type := .LateralGrip,
    finger_angles :=
      [("Thumb", [80, 70, 60]), ("Index", [90, 90, 90]), ("Middle", [20, 20, 20]),
       ("Ring", [10, 10, 10]), ("Pinky", [10, 10, 10])],
    wrist_orientation := some (0, 10, 0),
    approach_distance := 7 }

/-- Rust `GripPattern::tripod_grip`. -/
def tripod_grip : GripPattern :=
  { pattern_type := .TripodGrip,
    finger_angles :=
      [("Thumb", [45, 40, 35]), ("Index", [65, 55, 45]), ("Middle", [65, 55, 45]),
       ("Ring", [15, 15, 15]), ("Pinky", [10, 10, 10])],
    wrist_orientation := some (3, 0, 0),
    approach_distance := 7 }

/-- Rust `GripPattern::for_object_type`. -/
def for_object_type (object_type : String) : GripPattern :=
  if object_type = "cup" ∨ object_type = "mug" ∨ object_type = "glass" then power_grasp
  else if object_type = "bottle" then power_grasp
  else if object_type = "phone" ∨ object_type = "book" then precision_grip
  else if object_type = "pen" ∨ object_type = "pencil" then pinch_grip
  else if object_type = "card" then lateral_grip
  else power_grasp

end GripPattern

/-! ## Pickup sequence FSM (`src/control/pickup_sequence.rs`)

The `ServoProtocol` boundary is abstracted as a state type `P` with a
`send` function for `send_servo_command(servo_id, finger_name, angle)`
that either errors or returns the protocol's next state. -/

/-- Rust `SequenceStep`. -/
inductive SequenceStep where
  | Approach
  | Open
  | Grasp
  | Lift
  | Move
  | Release
  | Complete
  deriving Repr, DecidableEq

/-- Rust `PickupSequence` state (the unused `motion_planner` field is a default
constant in the source and is omitted). -/
structure PickupSequence where
  current_step : SequenceStep
  grip_pattern : GripPattern
  deriving Repr, DecidableEq

/-- A `ServoProtocol` implementation over protocol-state type `P`. -/
def SendFn (P : Type) := P → ℕ → String → ℚ → Except HandError P

namespace PickupSequence

/-- Rust `PickupSequence::new`. -/
def new (grip_pattern : GripPattern) : PickupSequence :=
  { current_step := .Approach, grip_pattern := grip_pattern }

/-- Rust `PickupSequence::is_complete`. -/
def is_complete (s : PickupSequence) : Bool :=
  s.current_step = SequenceStep.Complete

/-- Rust `PickupSequence::reset`. -/
def reset (s : PickupSequence) : PickupSequence :=
  { s with current_step := .Approach }

/-- Rust `PickupSequence::open_hand`: send angle 0 to every mapped finger of
the fixed list, aborting on the first protocol error. -/
def open_hand {P : Type} (send : SendFn P) (map : List (String × ℕ)) (p : P) :
    Except HandError P :=
  ["Thumb", "Index", "Middle", "Ring", "Pinky"].foldlM
    (fun p finger =>
      match (map.lookup finger) with
      | some servo_id => send p servo_id finger 0
      | none => .ok p)
    p

/-- Rust `PickupSequence::grasp_object`: for each finger of the pattern, send
the first stage angle (0 if the stage list is empty), aborting on the
first protocol error. -/
def grasp_object {P : Type} (s : PickupSequence) (send : SendFn P)
    (map : List (String × ℕ)) (p : P) : Except HandError P :=
  s.grip_pattern.finger_angles.foldlM
    (fun p entry =>
      match (map.lookup entry.1) with
      | some servo_id => send p servo_id entry.1 (entry.2.headD 0)
      | none => .ok p)
    p

/-- Rust `PickupSequence::execute`: one transition of the linear FSM.  Returns
the sequence and protocol state after the step; a protocol error leaves
`current_step` unchanged (the assignment in the source happens after the
sends). -/
def execute {P : Type} (s : PickupSequence) (send : SendFn P)
    (map : List (String × ℕ)) (p : P) :
    Except HandError (PickupSequence × P) :=
  match s.current_step with
  | .Approach => .ok ({ s with current_step := .Open }, p)
  | .Open =>
      match open_hand send map p with
      | .error e => .error e
      | .ok p' => .ok ({ s with current_step := .Grasp }, p')
  | .Grasp =>
      match s.grasp_object send map p with
      | .error e => .error e
      | .ok p' => .ok ({ s with current_step := .Lift }, p')
  | .Lift => .ok ({ s with current_step := .Move }, p)
  | .Move => .ok ({ s with current_step := .Release }, p)
  | .Release =>
      match open_hand send map p with
      | .error e => .error e
      | .ok p' => .ok ({ s with current_step := .Complete }, p')
  | .Complete => .ok (s, p)

/-- Rust `PickupSequence::execute_step_by_step`: short-circuits when already
complete, otherwise executes one step and reports completion. -/
def execute_step_by_step {P : Type} (s : PickupSequence) (send : SendFn P)
    (map : List (String × ℕ)) (p : P) :
    Except HandError (PickupSequence × P × Bool) :=
  if s.is_complete then .ok (s, p, true)
  else
    match s.execute send map p with
    | .error e => .error e
    | .ok (s', p') => .ok (s', p', s'.is_complete)

end PickupSequence

/-- Successor function of the linear pickup FSM (`Complete` is absorbing). -/
def nextStep : SequenceStep → SequenceStep
  | .Approach => .Open
  | .Open => .Grasp
  | .Grasp => .Lift
  | .Lift => .Move
  | .Move => .Release
  | .Release => .Complete
  | .Complete => .Complete

/-- Rust `create_default_finger_servo_map` (`src/control/pickup_sequence.rs`). -/
def create_default_finger_servo_map : List (String × ℕ) :=
  [("Thumb", 0), ("Index", 1), ("Middle", 2), ("Ring", 3), ("Pinky", 4)]

/-! ## Kinematics (`src/kinematics/types.rs`, `forward.rs`, `inverse.rs`)

The transcendental `f32` library calls are abstracted into a `FloatMath`
record: `sqrtFn q` stands for `q.sqrt()`, `atan2Deg y x` for
`y.atan2(x).to_degrees()`, and `cosDeg d` / `sinDeg d` for
`d.to_radians().cos()` / `d.to_radians().sin()`.  Every kinematics theorem
is proved for an arbitrary `FloatMath`, hence for any concrete math
library. -/

/-- Abstract float math library (see section comment). -/
structure FloatMath where
  sqrtFn : ℚ → ℚ
  atan2Deg : ℚ → ℚ → ℚ
  cosDeg : ℚ → ℚ
  sinDeg : ℚ → ℚ

/-- Rust `Position3D` (`src/kinematics/types.rs`), coordinates in cm. -/
structure Position3D where
  x : ℚ
  y : ℚ
  z : ℚ
  deriving Repr, DecidableEq

namespace Position3D

/-- Rust `Position3D::new`. -/
def new (x y z : ℚ) : Position3D := ⟨x, y, z⟩

/-- Rust `Position3D::zero`. -/
def zero : Position3D := ⟨0, 0, 0⟩

/-- Rust `Position3D::distance_to` via the abstract square root. -/
def distance_to (fm : FloatMath) (a b : Position3D) : ℚ :=
  let dx := a.x - b.x
  let dy := a.y - b.y
  let dz := a.z - b.z
  fm.sqrtFn (dx * dx + dy * dy + dz * dz)

end Position3D

/-- Rust `JointAngles` (`src/kinematics/types.rs`). -/
structure JointAngles where
  thumb : ℚ
  index : ℚ
  middle : ℚ
  ring : ℚ
  pinky : ℚ
  wrist_pitch : Option ℚ
  wrist_roll : Option ℚ
  deriving Repr, DecidableEq

namespace JointAngles

/-- Rust `JointAngles::new`. -/
def new (thumb index middle ring pinky : ℚ) : JointAngles :=
  ⟨thumb, index, middle, ring, pinky, none, none⟩

/-- Rust `JointAngles::with_wrist`. -/
def with_wrist (j : JointAngles) (pitch roll : ℚ) : JointAngles :=
  { j with wrist_pitch := some pitch, wrist_roll := some roll }

/-- Rust `JointAngles::open` (named `open_pose` here because `open` is a Lean
keyword). -/
def open_pose : JointAngles := new 0 0 0 0 0

/-- Rust `JointAngles::closed`. -/
def closed : JointAngles := new 90 90 90 90 90

end JointAngles

/-- Rust `FingerLinkLengths` (`src/kinematics/types.rs`). -/
structure FingerLinkLengths where
  proximal : ℚ
  middle : ℚ
  distal : ℚ
  deriving Repr, DecidableEq

/-- Rust `FingerLinkLengths::total_length`. -/
def FingerLinkLengths.total_length (l : FingerLinkLengths) : ℚ :=
  l.proximal + l.middle + l.distal

/-- Rust `HandGeometry` (`src/kinematics/types.rs`). -/
structure HandGeometry where
  palm_width : ℚ
  palm_length : ℚ
  thumb_offset_x : ℚ
  thumb_offset_y : ℚ
  finger_spacing : ℚ
  thumb_links : FingerLinkLengths
  finger_links : FingerLinkLengths
  deriving Repr, DecidableEq

/-- Rust `HandGeometry::default`. -/
def HandGeometry.default : HandGeometry :=
  { palm_width := 8, palm_length := 10, thumb_offset_x := -2,
    thumb_offset_y := 3, finger_spacing := 2,
    thumb_links := ⟨7/2, 5/2, 2⟩, finger_links := ⟨4, 3, 5/2⟩ }

/-- Rust `ForwardKinematics` (`src/kinematics/forward.rs`). -/
structure ForwardKinematics where
  geometry : HandGeometry
  base_position : Position3D
  deriving Repr, DecidableEq

namespace ForwardKinematics

/-- Rust `ForwardKinematics::compute_palm_center`. -/
def compute_palm_center (fm : FloatMath) (fk : ForwardKinematics)
    (joint_angles : JointAngles) : Position3D :=
  let wrist_pitch := joint_angles.wrist_pitch.getD 0
  let wrist_roll := joint_angles.wrist_roll.getD 0
  { x := fk.base_position.x
        + fk.geometry.palm_length * fm.cosDeg wrist_pitch * fm.cosDeg wrist_roll,
    y := fk.base_position.y + fk.geometry.palm_length * fm.sinDeg wrist_roll,
    z := fk.base_position.z + fk.geometry.palm_length * fm.sinDeg wrist_pitch }

/-- Rust `ForwardKinematics::compute_finger_tip_position`. -/
def compute_finger_tip_position (fm : FloatMath) (fk : ForwardKinematics)
    (finger_index : ℕ) (angle : ℚ) (joint_angles : JointAngles) : Position3D :=
  let palm_center := fk.compute_palm_center fm joint_angles
  let links := if finger_index = 0 then fk.geometry.thumb_links else fk.geometry.finger_links
  let finger_offset :=
    if finger_index = 0 then fk.geometry.thumb_offset_x
    else ((finger_index : ℚ) - 2) * fk.geometry.finger_spacing
  let extension := links.total_length * (1 - angle / 90)
  { x := palm_center.x + finger_offset,
    y := palm_center.y + (if finger_index = 0 then fk.geometry.thumb_offset_y else 0),
    z := palm_center.z + extension }

/-- Rust `ForwardKinematics::compute_all_finger_tips`. -/
def compute_all_finger_tips (fm : FloatMath) (fk : ForwardKinematics)
    (j : JointAngles) : List Position3D :=
  [j.thumb, j.index, j.middle, j.ring, j.pinky].enum.map
    (fun p => fk.compute_finger_tip_position fm p.1 p.2 j)

/-- Rust `ForwardKinematics::compute_grasp_center`: mean of the five finger
tips. -/
def compute_grasp_center (fm : FloatMath) (fk : ForwardKinematics)
    (j : JointAngles) : Position3D :=
  let tips := fk.compute_all_finger_tips fm j
  let sx := (tips.map Position3D.x).sum
  let sy := (tips.map Position3D.y).sum
  let sz := (tips.map Position3D.z).sum
  let count : ℚ := tips.length
  { x := sx / count, y := sy / count, z := sz / count }

end ForwardKinematics

/-- Rust `InverseKinematics` (`src/kinematics/inverse.rs`):
`max_iterations = 100`, `tolerance = 0.5`. -/
structure InverseKinematics where
  fk : ForwardKinematics
  max_iterations : ℕ
  tolerance : ℚ
  deriving Repr, DecidableEq

namespace InverseKinematics

/-- Rust `InverseKinematics::new`. -/
def new (geometry : HandGeometry) (base_position : Position3D) : InverseKinematics :=
  { fk := ⟨geometry, base_position⟩, max_iterations := 100, tolerance := 1/2 }

/-- Rust `InverseKinematics::approach_position`: open hand with wrist pitch and
roll pointed toward the target, clamped to ±45°. -/
def approach_position (fm : FloatMath) (ik : InverseKinematics)
    (target : Position3D) : JointAngles :=
  let base := ik.fk.base_position
  let dx := target.x - base.x
  let dy := target.y - base.y
  let dz := target.z - base.z
  let pitch := fm.atan2Deg dz (fm.sqrtFn (dx ^ 2 + dy ^ 2))
  let roll := fm.atan2Deg dy dx
  JointAngles.open_pose.with_wrist (ratClamp pitch (-45) 45) (ratClamp roll (-45) 45)

/-- The finger-angle update of one solver iteration
(`src/kinematics/inverse.rs` lines 59–71): all five fingers receive the
same update of magnitude `|delta_z| * learning_rate * 10`, subtracted when
`delta_z > 0` and added otherwise, each clamped to `[0, 90]`. -/
def ikFingerUpdate (current : JointAngles) (delta_z learning_rate : ℚ) : JointAngles :=
  if delta_z > 0 then
    { current with
      thumb := ratClamp (current.thumb - delta_z * learning_rate * 10) 0 90,
      index := ratClamp (current.index - delta_z * learning_rate * 10) 0 90,
      middle := ratClamp (current.middle - delta_z * learning_rate * 10) 0 90,
      ring := ratClamp (current.ring - delta_z * learning_rate * 10) 0 90,
      pinky := ratClamp (current.pinky - delta_z * learning_rate * 10) 0 90 }
  else
    { current with
      thumb := ratClamp (current.thumb + |delta_z| * learning_rate * 10) 0 90,
      index := ratClamp (current.index + |delta_z| * learning_rate * 10) 0 90,
      middle := ratClamp (current.middle + |delta_z| * learning_rate * 10) 0 90,
      ring := ratClamp (current.ring + |delta_z| * learning_rate * 10) 0 90,
      pinky := ratClamp (current.pinky + |delta_z| * learning_rate * 10) 0 90 }

/-- The wrist update of one solver iteration (`inverse.rs` lines 73–81):
pitch moves by `delta_y * learning_rate * 5` and roll by
`delta_x * learning_rate * 5`, each clamped to `[-45, 45]`; absent wrist
axes stay absent. -/
def ikWristUpdate (current : JointAngles) (delta_x delta_y learning_rate : ℚ) :
    JointAngles :=
  let withPitch :=
    match current.wrist_pitch with
    | some pitch =>
        { current with
          wrist_pitch := some (ratClamp (pitch + delta_y * learning_rate * 5) (-45) 45) }
    | none => current
  match withPitch.wrist_roll with
  | some roll =>
      { withPitch with
        wrist_roll := some (ratClamp (roll + delta_x * learning_rate * 5) (-45) 45) }
  | none => withPitch

/-- The iteration loop of `solve_for_grasp_position` (`inverse.rs` lines
45–82): `fuel` counts the remaining iterations and `iter` the current
iteration index, so the loop is entered with `fuel = max_iterations` and
`iter = 0`. -/
def ikIter (fm : FloatMath) (ik : InverseKinematics) (target : Position3D) :
    ℕ → ℕ → JointAngles → JointAngles
  | 0, _, current => current
  | fuel + 1, iter, current =>
      let grasp_center := ik.fk.compute_grasp_center fm current
      let error := target.distance_to fm grasp_center
      if error < ik.tolerance then current
      else
        let delta_x := target.x - grasp_center.x
        let delta_y := target.y - grasp_center.y
        let delta_z := target.z - grasp_center.z
        let learning_rate := (1/10) * (1 - (iter : ℚ) / (ik.max_iterations : ℚ))
        ikIter fm ik target fuel (iter + 1)
          (ikWristUpdate (ikFingerUpdate current delta_z learning_rate)
            delta_x delta_y learning_rate)

/-- Rust `InverseKinematics::solve_for_grasp_position`. -/
def solve_for_grasp_position (fm : FloatMath) (ik : InverseKinematics)
    (target : Position3D) (initial_guess : Option JointAngles) :
    Except HandError JointAngles :=
  let base := ik.fk.base_position
  let distance := base.distance_to fm target
  let max_reach := ik.fk.geometry.finger_links.total_length + ik.fk.geometry.palm_length
  if distance > max_reach then
    .ok (ik.approach_position fm target)
  else if distance < 2 then
    .ok JointAngles.open_pose
  else
    .ok (ikIter fm ik target ik.max_iterations 0
      (initial_guess.getD JointAngles.open_pose))

end InverseKinematics

/-! ## Vision data and object selection (`src/vision/mod.rs`) -/

/-- Rust `BoundingBox` (`src/vision/mod.rs`), `i32` pixel coordinates. -/
structure BoundingBox where
  x : ℤ
  y : ℤ
  width : ℤ
  height : ℤ
  deriving Repr, DecidableEq

/-- Rust `BoundingBox::center`: Rust `i32` division truncates toward zero
(`Int.tdiv`). -/
def BoundingBox.center (b : BoundingBox) : ℤ × ℤ :=
  (b.x + Int.tdiv b.width 2, b.y + Int.tdiv b.height 2)

/-- Rust `DetectedObject` (`src/vision/mod.rs`). -/
structure DetectedObject where
  label : String
  confidence : ℚ
  bounding_box : BoundingBox
  distance : ℚ
  deriving Repr, DecidableEq

/-- The `max_by_key` key of `select_best_object`:
`(confidence * 100.0) as i32 - (distance_to_center / 10.0) as i32`, where
`distance_to_center` is the Euclidean pixel distance from the detection
box's center to the frame center.  Since the distance is non-negative,
its truncated cast after division by 10 is `Nat.sqrt (dx² + dy²) / 10`. -/
def scoreKey (frame_center : ℤ × ℤ) (o : DetectedObject) : ℤ :=
  let c := o.bounding_box.center
  let dx := (c.1 - frame_center.1).natAbs
  let dy := (c.2 - frame_center.2).natAbs
  f32AsI32 (o.confidence * 100) - ((Nat.sqrt (dx * dx + dy * dy) / 10 : ℕ) : ℤ)

/-- Rust `select_best_object` (`src/vision/mod.rs`): `None` on an empty list,
otherwise `Iterator::max_by_key`, which returns the LAST of the
maximal-key elements. -/
def select_best_object (objects : List DetectedObject) (frame_center : ℤ × ℤ) :
    Option DetectedObject :=
  if objects.isEmpty then none
  else
    objects.foldl
      (fun best o =>
        match best with
        | none => some o
        | some b => if scoreKey frame_center b ≤ scoreKey frame_center o then some o else some b)
      none

/-- Does `hay` start with `needle`?  (Helper for the source's
`str::contains`.) -/
def charsBeginWith : List Char → List Char → Bool
  | [], _ => true
  | _ :: _, [] => false
  | a :: as, b :: bs => a = b && charsBeginWith as bs

/-- Does `needle` occur as a contiguous substring of the second list?
(Semantics of Rust `str::contains` with a string pattern.) -/
def charsHave (needle : List Char) : List Char → Bool
  | [] => needle.isEmpty
  | c :: rest => charsBeginWith needle (c :: rest) || charsHave needle rest

/-- Rust `str::contains(pat)`. -/
def strHas (hay pat : String) : Bool :=
  charsHave pat.data hay.data

/-- Rust `classify_object_type` (`src/vision/mod.rs`): case-insensitive
substring match against the fixed priority list; every label classifies
(the fallback is `"small_object"`). -/
def classify_object_type (label : String) : Option String :=
  let l := label.toLower
  if strHas l "cup" || strHas l "mug" || strHas l "glass" then some "cup"
  else if strHas l "bottle" then some "bottle"
  else if strHas l "phone" || strHas l "cellphone" || strHas l "mobile" then some "phone"
  else if strHas l "book" || strHas l "notebook" then some "book"
  else if strHas l "pen" || strHas l "pencil" then some "pen"
  else some "small_object"

/-! ## Scripted control loop (`src/control/vision_controller.rs`)

The external `ObjectDetector` is abstracted by passing in the outcome of
its `detect_objects()` call and its frame size for the current iteration;
the EMG serial input is the `pollValue` delivered to `EmgReader::poll`.
Methods return the final controller state (mutations before an early
`?`-return persist in Rust) together with the `Except` result. -/

/-- The `VisionController` state (detector, protocol and config are passed to
the step functions). -/
structure VisionController where
  emg : EmgReader
  current_sequence : Option PickupSequence
  running : Bool
  deriving Repr, DecidableEq

namespace VisionController

/-- The source's `EmgReader::set_state` applied inside the controller. -/
def setEmgState (vc : VisionController) (s : EmgState) : VisionController :=
  { vc with emg := { vc.emg with state := s } }

/-- The object-detection block shared verbatim by `run` and `run_step`
(detect, select, classify, build the pickup sequence, or return to
`Idle`).  Returns the updated controller; the detector error is
propagated by `?` in the source, so it surfaces as `.error`. -/
def detectPhase (detectResult : Except HandError (List DetectedObject))
    (frameSize : ℤ × ℤ) (vc : VisionController) :
    VisionController × Except HandError Bool :=
  match detectResult with
  | .error e => (vc, .error e)
  | .ok objects =>
    if objects.isEmpty then
      (vc.setEmgState .Idle, .ok true)
    else
      let frame_center := (Int.tdiv frameSize.1 2, Int.tdiv frameSize.2 2)
      match select_best_object objects frame_center with
      | some obj =>
          let object_type := (classify_object_type obj.label).getD "small_object"
          let pattern := GripPattern.for_object_type object_type
          ({ vc with current_sequence := some (PickupSequence.new pattern) },
            .ok vc.running)
      | none => (vc.setEmgState .Idle, .ok vc.running)

/-- The trigger-and-detect part of `run_step` (everything after the
active-sequence block). -/
def run_step_trigger {P : Type} (_send : SendFn P) (_map : List (String × ℕ))
    (detectResult : Except HandError (List DetectedObject)) (frameSize : ℤ × ℤ)
    (pollValue : Option ℕ) (now : ℕ) (vc : VisionController) (p : P) :
    VisionController × Except HandError (P × Bool) :=
  let current_state := vc.emg.state
  let afterTrigger : Option VisionController :=
    if current_state = .Triggered then
      some (vc.setEmgState .Executing)
    else
      let (emg', trig) := vc.emg.poll pollValue now
      let vc' := { vc with emg := emg' }
      if trig then some (vc'.setEmgState .Executing) else none
  match afterTrigger with
  | none =>
      let (emg', _) := vc.emg.poll pollValue now
      let vc' := { vc with emg := emg' }
      (vc', .ok (p, vc'.running))
  | some vc' =>
    if vc'.emg.state ≠ .Executing then (vc', .ok (p, vc'.running))
    else
      let (vc'', r) := detectPhase detectResult frameSize vc'
      match r with
      | .error e => (vc'', .error e)
      | .ok b => (vc'', .ok (p, b))

/-- Rust `VisionController::run_step`: one invocation.  The `Bool` result (on
empty detection the source returns `Ok(true)`, otherwise
`Ok(self.running)` / `Ok(true)` while a sequence is advancing) mirrors
the source's return value; an error from the sequence's protocol sends or
from the detector propagates. -/
def run_step {P : Type} (send : SendFn P) (map : List (String × ℕ))
    (detectResult : Except HandError (List DetectedObject)) (frameSize : ℤ × ℤ)
    (pollValue : Option ℕ) (now : ℕ) (vc : VisionController) (p : P) :
    VisionController × Except HandError (P × Bool) :=
  match vc.current_sequence with
  | some seq =>
    if vc.emg.state = .Executing then
      match seq.execute_step_by_step send map p with
      | .error e => (vc, .error e)
      | .ok (s', p', complete) =>
        if complete then
          (({ vc with current_sequence := none }).setEmgState .Idle, .ok (p', true))
        else
          ({ vc with current_sequence := some s' }, .ok (p', true))
    else run_step_trigger send map detectResult frameSize pollValue now vc p
  | none => run_step_trigger send map detectResult frameSize pollValue now vc p


/-- The polling part of one `run` iteration. -/
def runIterPoll {P : Type}
    (detectResult : Except HandError (List DetectedObject)) (frameSize : ℤ × ℤ)
    (pollValue : Option ℕ) (now : ℕ) (vc : VisionController) (p : P) :
    VisionController × Except HandError P :=
  let (emg', trig) := vc.emg.poll pollValue now
  let vc1 := { vc with emg := emg' }
  if trig then
    let vc2 := vc1.setEmgState .Executing
    let (vc3, r) := detectPhase detectResult frameSize vc2
    match r with
    | .error e => (vc3, .error e)
    | .ok _ => (vc3, .ok p)
  else (vc1, .ok p)

/-- One iteration of the `while` body of `VisionController::run`.  The
result is `.ok` when the iteration ends in `continue`/fall-through and
`.error` when a `?` aborts `run` itself. -/
def runIter {P : Type} (send : SendFn P) (map : List (String × ℕ))
    (detectResult : Except HandError (List DetectedObject)) (frameSize : ℤ × ℤ)
    (pollValue : Option ℕ) (now : ℕ) (vc : VisionController) (p : P) :
    VisionController × Except HandError P :=
  match vc.current_sequence with
  | some seq =>
    if vc.emg.state = .Executing then
      match seq.execute_step_by_step send map p with
      | .error e => (vc, .error e)
      | .ok (s', p', complete) =>
        if complete then
          (({ vc with current_sequence := none }).setEmgState .Idle, .ok p')
        else
          ({ vc with current_sequence := some s' }, .ok p')
    else runIterPoll detectResult frameSize pollValue now vc p
  | none => runIterPoll detectResult frameSize pollValue now vc p


end VisionController

end Robot

/-! # Claim theorems -/

namespace Robot

/-- C9: `translate_angle` first clamps the input angle to
`[min_angle, max_angle]` and then, iff `inverted`, returns `180` minus the
clamped value; with the default `0–180` range and `inverted = true`,
`translate_angle 0 = 180`, `translate_angle 90 = 90`,
`translate_angle 180 = 0`; non-inverted configs return the clamp itself. -/
theorem C9_translate_angle_clamps_then_inverts (c : ServoConfig) (a : ℚ)
    (h : c.min_angle ≤ c.max_angle) :
    (c.translate_angle a =
      if c.inverted then 180 - ratClamp a c.min_angle c.max_angle
      else ratClamp a c.min_angle c.max_angle)
    ∧ (c.inverted = false → c.translate_angle a = ratClamp a c.min_angle c.max_angle)
    ∧ (ServoConfig.new 4 true).translate_angle 0 = 180
    ∧ (ServoConfig.new 4 true).translate_angle 90 = 90
    ∧ (ServoConfig.new 4 true).translate_angle 180 = 0 := by
  refine ⟨rfl, ?_, ?_, ?_, ?_⟩ <;>
    first
      | (intro hinv; simp [ServoConfig.translate_angle, hinv])
      | norm_num [ServoConfig.translate_angle, ServoConfig.new, ratClamp]

/-- Witness for C9 at a concrete inverted config and angle. -/
theorem C9_translate_angle_clamps_then_inverts_witness :
    ((ServoConfig.new 4 true).min_angle ≤ (ServoConfig.new 4 true).max_angle)
    ∧ (((ServoConfig.new 4 true).translate_angle 77 =
        if (ServoConfig.new 4 true).inverted then
          180 - ratClamp 77 (ServoConfig.new 4 true).min_angle (ServoConfig.new 4 true).max_angle
        else ratClamp 77 (ServoConfig.new 4 true).min_angle (ServoConfig.new 4 true).max_angle)
      ∧ ((ServoConfig.new 4 true).inverted = false →
          (ServoConfig.new 4 true).translate_angle 77 =
            ratClamp 77 (ServoConfig.new 4 true).min_angle (ServoConfig.new 4 true).max_angle)
      ∧ (ServoConfig.new 4 true).translate_angle 0 = 180
      ∧ (ServoConfig.new 4 true).translate_angle 90 = 90
      ∧ (ServoConfig.new 4 true).translate_angle 180 = 0) :=
  ⟨by norm_num [ServoConfig.new],
    C9_translate_angle_clamps_then_inverts (ServoConfig.new 4 true) 77 (by norm_num [ServoConfig.new])⟩

/-- C3: `inject_value v` returns `true` iff `v ≥ threshold`, the state
is `Idle`, and `last_trigger` is unset or at least `debounce_duration` has
elapsed; on `true` the state becomes `Triggered` and `last_trigger := now`,
on `false` the reader is unchanged.  With threshold 600, `inject_value 650`
from `Idle` returns `true` leaving state `Triggered`, and an immediately
following `inject_value 700` returns `false`. -/
theorem C3_inject_value_debounce (r : EmgReader) (v now : ℕ) :
    ((r.inject_value v now).2 = true ↔
      r.threshold ≤ v ∧ r.state = .Idle ∧
        (r.last_trigger = none ∨
          ∃ last, r.last_trigger = some last ∧ r.debounce_duration ≤ now - last))
    ∧ ((r.inject_value v now).2 = true →
        (r.inject_value v now).1 = { r with state := .Triggered, last_trigger := some now })
    ∧ ((r.inject_value v now).2 = false → (r.inject_value v now).1 = r)
    ∧ ((EmgReader.new 600).inject_value 650 now).2 = true
    ∧ (((EmgReader.new 600).inject_value 650 now).1).state = .Triggered
    ∧ (∀ t, ((((EmgReader.new 600).inject_value 650 now).1).inject_value 700 t).2 = false) := by
  have hconc : ((EmgReader.new 600).inject_value 650 now).2 = true
      ∧ (((EmgReader.new 600).inject_value 650 now).1).state = .Triggered
      ∧ (∀ t, ((((EmgReader.new 600).inject_value 650 now).1).inject_value 700 t).2 = false) := by
    refine ⟨?_, ?_, ?_⟩ <;>
      simp [EmgReader.inject_value, EmgReader.new]
  refine ⟨?_, ?_, ?_, hconc.1, hconc.2.1, hconc.2.2⟩
  · unfold EmgReader.inject_value
    by_cases hg : v ≥ r.threshold ∧ r.state = .Idle
    · obtain ⟨h1, h2⟩ := hg
      cases hlt : r.last_trigger with
      | none => simp [hlt, h1, h2]
      | some last =>
          by_cases hd : now - last < r.debounce_duration
          · simp [hlt, h1, h2, hd] <;> omega
          · simp [hlt, h1, h2, hd] <;> omega
    · rw [if_neg hg]
      simp only [Bool.false_eq_true, false_iff]
      intro hx
      exact hg ⟨hx.1, hx.2.1⟩
  · unfold EmgReader.inject_value
    by_cases hg : v ≥ r.threshold ∧ r.state = .Idle
    · obtain ⟨h1, h2⟩ := hg
      cases hlt : r.last_trigger with
      | none => simp [hlt, h1, h2]
      | some last =>
          by_cases hd : now - last < r.debounce_duration
          · simp [hlt, h1, h2, hd]
          · simp [hlt, h1, h2, hd]
    · rw [if_neg hg]
      simp
  · unfold EmgReader.inject_value
    by_cases hg : v ≥ r.threshold ∧ r.state = .Idle
    · obtain ⟨h1, h2⟩ := hg
      cases hlt : r.last_trigger with
      | none => simp [hlt, h1, h2]
      | some last =>
          by_cases hd : now - last < r.debounce_duration
          · simp [hlt, h1, h2, hd]
          · simp [hlt, h1, h2, hd]
    · rw [if_neg hg]
      simp

/-- C1: for each motor kind, an in-range `set_position` succeeds (for
the PWM servo: when the bus write succeeds) and a subsequent
`get_position` returns exactly the commanded angle, while an out-of-range
angle yields `InvalidJointAngle` carrying the joint id, the offending
angle and the bounds. -/
theorem C1_set_position_bounds (s : PwmServo) (ctrl : MotorController)
    (m : StepperMotor) (d : DcMotor) (a : ℚ) :
    (s.min_angle ≤ a → a ≤ s.max_angle →
      ctrl.write_pwm s.channel (s.angle_to_pulse a) = none →
      (s.set_position ctrl a).2.1 = .ok ()
        ∧ (s.set_position ctrl a).1.get_position = .ok a)
    ∧ (a < s.min_angle ∨ a > s.max_angle →
        (s.set_position ctrl a).2.1 =
          .error (.InvalidJointAngle s.channel a s.min_angle s.max_angle))
    ∧ (m.min_angle ≤ a → a ≤ m.max_angle →
      (m.set_position a).2 = .ok ()
        ∧ (m.set_position a).1.get_position = .ok a)
    ∧ (a < m.min_angle ∨ a > m.max_angle →
        (m.set_position a).2 =
          .error (.InvalidJointAngle m.id a m.min_angle m.max_angle))
    ∧ (d.min_angle ≤ a → a ≤ d.max_angle →
      (d.set_position a).2 = .ok ()
        ∧ (d.set_position a).1.get_position = .ok a)
    ∧ (a < d.min_angle ∨ a > d.max_angle →
        (d.set_position a).2 =
          .error (.InvalidJointAngle d.id a d.min_angle d.max_angle)) := by
  refine ⟨?_, ?_, ?_, ?_, ?_, ?_⟩
  · intro h1 h2 hw
    have hcond : ¬(a < s.min_angle ∨ a > s.max_angle) := by
      push_neg; exact ⟨h1, h2⟩
    simp [PwmServo.set_position, hcond, hw, PwmServo.get_position]
  · intro hcond
    simp [PwmServo.set_position, hcond]
  · intro h1 h2
    have hcond : ¬(a < m.min_angle ∨ a > m.max_angle) := by
      push_neg; exact ⟨h1, h2⟩
    simp [StepperMotor.set_position, hcond, StepperMotor.get_position]
  · intro hcond
    simp [StepperMotor.set_position, hcond]
  · intro h1 h2
    have hcond : ¬(a < d.min_angle ∨ a > d.max_angle) := by
      push_neg; exact ⟨h1, h2⟩
    simp [DcMotor.set_position, hcond, DcMotor.get_position]
  · intro hcond
    simp [DcMotor.set_position, hcond]

/-- Witness for C1: a 0–180 servo/stepper/DC motor at angle 90 (in range,
bus write succeeding) and at angle 200 (out of range). -/
theorem C1_set_position_bounds_witness :
    (((PwmServo.new 0 0 180 500 2500).set_position ⟨fun _ _ => none⟩ 90).2.1 = .ok ()
      ∧ ((PwmServo.new 0 0 180 500 2500).set_position ⟨fun _ _ => none⟩ 90).1.get_position
          = .ok 90)
    ∧ ((PwmServo.new 0 0 180 500 2500).set_position ⟨fun _ _ => none⟩ 200).2.1 =
        .error (.InvalidJointAngle 0 200 0 180)
    ∧ (((StepperMotor.mk 1 0 false 0 180 200).set_position 90).2 = .ok ()
      ∧ ((StepperMotor.mk 1 0 false 0 180 200).set_position 90).1.get_position = .ok 90)
    ∧ ((StepperMotor.mk 1 0 false 0 180 200).set_position 200).2 =
        .error (.InvalidJointAngle 1 200 0 180)
    ∧ (((DcMotor.mk 2 0 false 0 180).set_position 90).2 = .ok ()
      ∧ ((DcMotor.mk 2 0 false 0 180).set_position 90).1.get_position = .ok 90)
    ∧ ((DcMotor.mk 2 0 false 0 180).set_position 200).2 =
        .error (.InvalidJointAngle 2 200 0 180) := by
  have hin := C1_set_position_bounds (PwmServo.new 0 0 180 500 2500) ⟨fun _ _ => none⟩
    (StepperMotor.mk 1 0 false 0 180 200) (DcMotor.mk 2 0 false 0 180) 90
  have hout := C1_set_position_bounds (PwmServo.new 0 0 180 500 2500) ⟨fun _ _ => none⟩
    (StepperMotor.mk 1 0 false 0 180 200) (DcMotor.mk 2 0 false 0 180) 200
  exact ⟨hin.1 (by norm_num [PwmServo.new]) (by norm_num [PwmServo.new]) rfl,
    hout.2.1 (by norm_num [PwmServo.new]),
    hin.2.2.1 (by norm_num) (by norm_num),
    hout.2.2.2.1 (by norm_num),
    hin.2.2.2.2.1 (by norm_num) (by norm_num),
    hout.2.2.2.2.2 (by norm_num)⟩

/-- C10: when the bus write fails on an in-range angle, `PwmServo`'s
`set_position` propagates exactly the controller's error and leaves the
stored position unchanged, so `get_position` still returns the old
position. -/
theorem C10_set_position_bus_error_keeps_state (s : PwmServo)
    (ctrl : MotorController) (a : ℚ) (e : HandError)
    (h1 : s.min_angle ≤ a) (h2 : a ≤ s.max_angle)
    (hw : ctrl.write_pwm s.channel (s.angle_to_pulse a) = some e) :
    (s.set_position ctrl a).2.1 = .error e
    ∧ (s.set_position ctrl a).1 = s
    ∧ (s.set_position ctrl a).1.get_position = .ok s.current_position := by
  have hcond : ¬(a < s.min_angle ∨ a > s.max_angle) := by
    push_neg; exact ⟨h1, h2⟩
  simp [PwmServo.set_position, hcond, hw, PwmServo.get_position]

/-- Witness for C10: a failing bus write on an in-range command leaves the
position at its prior value 5. -/
theorem C10_set_position_bus_error_keeps_state_witness :
    ((PwmServo.mk 0 5 true 0 180 500 2500).set_position
        ⟨fun _ _ => some (.Communication "bus down")⟩ 90).2.1 =
      .error (.Communication "bus down")
    ∧ ((PwmServo.mk 0 5 true 0 180 500 2500).set_position
        ⟨fun _ _ => some (.Communication "bus down")⟩ 90).1 =
      PwmServo.mk 0 5 true 0 180 500 2500
    ∧ ((PwmServo.mk 0 5 true 0 180 500 2500).set_position
        ⟨fun _ _ => some (.Communication "bus down")⟩ 90).1.get_position = .ok 5 :=
  C10_set_position_bus_error_keeps_state (PwmServo.mk 0 5 true 0 180 500 2500)
    ⟨fun _ _ => some (.Communication "bus down")⟩ 90 (.Communication "bus down")
    (by norm_num) (by norm_num) rfl

/-- C7 counterexample: a servo with angle range 0–2 and pulse range 0–3
commanded to angle 1 issues `write_pwm` with pulse 1 — the `as u16` cast
truncates the exact value 1.5 — while the claim's rounding formula
`min_pulse + round(normalized * pulse_range)` yields 2. -/
theorem C7_counterexample :
    ((PwmServo.new 0 0 2 0 3).set_position ⟨fun _ _ => none⟩ 1).2.2 = [(0, 1)]
    ∧ (0 : ℤ) + round (((1 : ℚ) - 0) / (2 - 0) * (3 - 0)) = 2
    ∧ (1 : ℕ) ≠ 2 := by
  refine ⟨?_, ?_, by decide⟩
  · norm_num [PwmServo.set_position, PwmServo.angle_to_pulse, PwmServo.new, f32AsU16]
  · norm_num [round_eq]

/-- C7 (amended): for an in-range angle on a well-formed servo
(`min_angle < max_angle`, `min_pulse ≤ max_pulse < 65536`), `set_position`
issues exactly one bus call `write_pwm(channel, pulse)` with
`pulse = min_pulse + ⌊(angle − min_angle)/(max_angle − min_angle) ·
(max_pulse − min_pulse)⌋` — the normalized product TRUNCATED toward zero
(Rust `as u16`), not rounded to the nearest integer as the claim states. -/
theorem C7_angle_to_pulse_truncates (s : PwmServo) (ctrl : MotorController) (a : ℚ)
    (h1 : s.min_angle ≤ a) (h2 : a ≤ s.max_angle) (h3 : s.min_angle < s.max_angle)
    (h4 : s.min_pulse ≤ s.max_pulse) (h5 : s.max_pulse < 65536) :
    s.angle_to_pulse a =
      s.min_pulse +
        (⌊(a - s.min_angle) / (s.max_angle - s.min_angle)
            * ((s.max_pulse : ℚ) - (s.min_pulse : ℚ))⌋).toNat
    ∧ (s.set_position ctrl a).2.2 = [(s.channel, s.angle_to_pulse a)] := by
  have hpr : (s.max_pulse + 65536 - s.min_pulse) % 65536 = s.max_pulse - s.min_pulse := by
    omega
  have hprcast : ((s.max_pulse - s.min_pulse : ℕ) : ℚ)
      = (s.max_pulse : ℚ) - (s.min_pulse : ℚ) := by
    push_cast [Nat.cast_sub h4]
    ring
  have hden : (0 : ℚ) < s.max_angle - s.min_angle := by linarith
  have hn0 : (0 : ℚ) ≤ (a - s.min_angle) / (s.max_angle - s.min_angle) :=
    div_nonneg (by linarith) (le_of_lt hden)
  have hn1 : (a - s.min_angle) / (s.max_angle - s.min_angle) ≤ 1 :=
    (div_le_one hden).mpr (by linarith)
  set q : ℚ := (a - s.min_angle) / (s.max_angle - s.min_angle)
      * ((s.max_pulse : ℚ) - (s.min_pulse : ℚ)) with hq
  have hq0 : (0 : ℚ) ≤ q := by
    apply mul_nonneg hn0
    have : (s.min_pulse : ℚ) ≤ (s.max_pulse : ℚ) := by exact_mod_cast h4
    linarith
  have hqle : q ≤ (s.max_pulse : ℚ) - (s.min_pulse : ℚ) := by
    rw [hq]
    have hnn : (0 : ℚ) ≤ (s.max_pulse : ℚ) - (s.min_pulse : ℚ) := by
      have : (s.min_pulse : ℚ) ≤ (s.max_pulse : ℚ) := by exact_mod_cast h4
      linarith
    calc (a - s.min_angle) / (s.max_angle - s.min_angle)
          * ((s.max_pulse : ℚ) - (s.min_pulse : ℚ))
        ≤ 1 * ((s.max_pulse : ℚ) - (s.min_pulse : ℚ)) := by
          exact mul_le_mul_of_nonneg_right hn1 hnn
      _ = (s.max_pulse : ℚ) - (s.min_pulse : ℚ) := one_mul _
  have hfloorle : ⌊q⌋ ≤ (s.max_pulse - s.min_pulse : ℕ) := by
    have := Int.floor_le_floor hqle
    rwa [← hprcast, Int.floor_natCast] at this
  have htoNat : (⌊q⌋).toNat ≤ s.max_pulse - s.min_pulse := by
    omega
  have hcast : f32AsU16 q = (⌊q⌋).toNat := by
    unfold f32AsU16
    by_cases hz : q ≤ 0
    · have hq00 : q = 0 := le_antisymm hz hq0
      simp [hq00]
    · rw [if_neg hz]
      have : (⌊q⌋).toNat ≤ 65535 := by omega
      omega
  have hmain : s.angle_to_pulse a = s.min_pulse + (⌊q⌋).toNat := by
    unfold PwmServo.angle_to_pulse
    simp only [hpr, hprcast]
    rw [← hq, hcast]
    omega
  refine ⟨hmain, ?_⟩
  have hcond : ¬(a < s.min_angle ∨ a > s.max_angle) := by
    push_neg; exact ⟨h1, h2⟩
  unfold PwmServo.set_position
  rw [if_neg hcond]
  rcases hw : ctrl.write_pwm s.channel (s.angle_to_pulse a) with _ | e <;> simp [hw]

/-- Witness for the amended C7: a 0–180 servo with pulses 500–2500 at
angle 45 issues exactly `write_pwm(0, 1000)`. -/
theorem C7_angle_to_pulse_truncates_witness :
    ((PwmServo.new 0 0 180 500 2500).angle_to_pulse 45 =
      (PwmServo.new 0 0 180 500 2500).min_pulse +
        (⌊((45 : ℚ) - (PwmServo.new 0 0 180 500 2500).min_angle)
            / ((PwmServo.new 0 0 180 500 2500).max_angle
                - (PwmServo.new 0 0 180 500 2500).min_angle)
            * (((PwmServo.new 0 0 180 500 2500).max_pulse : ℚ)
                - ((PwmServo.new 0 0 180 500 2500).min_pulse : ℚ))⌋).toNat)
    ∧ ((PwmServo.new 0 0 180 500 2500).set_position ⟨fun _ _ => none⟩ 45).2.2 =
        [((PwmServo.new 0 0 180 500 2500).channel,
          (PwmServo.new 0 0 180 500 2500).angle_to_pulse 45)] :=
  C7_angle_to_pulse_truncates (PwmServo.new 0 0 180 500 2500) ⟨fun _ _ => none⟩ 45
    (by norm_num [PwmServo.new]) (by norm_num [PwmServo.new])
    (by norm_num [PwmServo.new]) (by norm_num [PwmServo.new])
    (by norm_num [PwmServo.new])

/-- A `foldlM` over `Except` whose step function always succeeds
succeeds. -/
theorem foldlM_allOk {P α E : Type} (f : P → α → Except E P)
    (h : ∀ p x, ∃ p', f p x = .ok p') :
    ∀ (l : List α) (p : P), ∃ p', l.foldlM f p = .ok p' := by
  intro l
  induction l with
  | nil => intro p; exact ⟨p, rfl⟩
  | cons a l ih =>
      intro p
      obtain ⟨p1, hp1⟩ := h p a
      obtain ⟨p2, hp2⟩ := ih p1
      refine ⟨p2, ?_⟩
      simp only [List.foldlM, hp1]
      exact hp2

/-- Rust `open_hand` succeeds when every protocol send succeeds. -/
theorem open_hand_ok {P : Type} (send : SendFn P) (map : List (String × ℕ))
    (hsend : ∀ p i n a, ∃ p', send p i n a = .ok p') (p : P) :
    ∃ p', PickupSequence.open_hand send map p = .ok p' := by
  apply foldlM_allOk
  intro p' finger
  cases hf : map.lookup finger with
  | none => exact ⟨p', by simp [hf]⟩
  | some servo_id =>
      obtain ⟨p'', hp⟩ := hsend p' servo_id finger 0
      exact ⟨p'', by simp [hf, hp]⟩

/-- Rust `grasp_object` succeeds when every protocol send succeeds. -/
theorem grasp_object_ok {P : Type} (s : PickupSequence) (send : SendFn P)
    (map : List (String × ℕ))
    (hsend : ∀ p i n a, ∃ p', send p i n a = .ok p') (p : P) :
    ∃ p', s.grasp_object send map p = .ok p' := by
  apply foldlM_allOk
  intro p' entry
  cases hf : map.lookup entry.1 with
  | none => exact ⟨p', by simp [hf]⟩
  | some servo_id =>
      obtain ⟨p'', hp⟩ := hsend p' servo_id entry.1 (entry.2.head?.getD 0)
      exact ⟨p'', by simp [hf, hp]⟩

/-- With an always-succeeding protocol, `execute` advances the FSM by
exactly one step of `nextStep`. -/
theorem execute_advances {P : Type} (send : SendFn P) (map : List (String × ℕ))
    (hsend : ∀ p i n a, ∃ p', send p i n a = .ok p')
    (s : PickupSequence) (p : P) :
    ∃ p', s.execute send map p =
      .ok ({ s with current_step := nextStep s.current_step }, p') := by
  obtain ⟨st, pat⟩ := s
  cases st
  case Approach => exact ⟨p, rfl⟩
  case Open =>
      obtain ⟨p', hp⟩ := open_hand_ok send map hsend p
      exact ⟨p', by simp [PickupSequence.execute, hp, nextStep]⟩
  case Grasp =>
      obtain ⟨p', hp⟩ := grasp_object_ok ⟨.Grasp, pat⟩ send map hsend p
      exact ⟨p', by simp [PickupSequence.execute, hp, nextStep]⟩
  case Lift => exact ⟨p, rfl⟩
  case Move => exact ⟨p, rfl⟩
  case Release =>
      obtain ⟨p', hp⟩ := open_hand_ok send map hsend p
      exact ⟨p', by simp [PickupSequence.execute, hp, nextStep]⟩
  case Complete => exact ⟨p, rfl⟩

/-- C4: from `new pattern` the FSM starts at `Approach` and is not
complete; with a succeeding protocol, six calls to `execute_step_by_step`
visit `Open, Grasp, Lift, Move, Release, Complete` in exactly that order,
reporting completion only on the sixth; a further call in `Complete`
changes nothing; `is_complete` holds exactly in `Complete`; and `reset`
returns any state to `Approach`. -/
theorem C4_pickup_sequence_six_steps {P : Type} (send : SendFn P)
    (map : List (String × ℕ)) (pattern : GripPattern) (p0 : P)
    (hsend : ∀ p i n a, ∃ p', send p i n a = .ok p') :
    (PickupSequence.new pattern).current_step = .Approach
    ∧ (PickupSequence.new pattern).is_complete = false
    ∧ (∃ p1 p2 p3 p4 p5 p6,
        (PickupSequence.new pattern).execute_step_by_step send map p0 =
          .ok (⟨.Open, pattern⟩, p1, false)
        ∧ (⟨.Open, pattern⟩ : PickupSequence).execute_step_by_step send map p1 =
            .ok (⟨.Grasp, pattern⟩, p2, false)
        ∧ (⟨.Grasp, pattern⟩ : PickupSequence).execute_step_by_step send map p2 =
            .ok (⟨.Lift, pattern⟩, p3, false)
        ∧ (⟨.Lift, pattern⟩ : PickupSequence).execute_step_by_step send map p3 =
            .ok (⟨.Move, pattern⟩, p4, false)
        ∧ (⟨.Move, pattern⟩ : PickupSequence).execute_step_by_step send map p4 =
            .ok (⟨.Release, pattern⟩, p5, false)
        ∧ (⟨.Release, pattern⟩ : PickupSequence).execute_step_by_step send map p5 =
            .ok (⟨.Complete, pattern⟩, p6, true)
        ∧ (⟨.Complete, pattern⟩ : PickupSequence).execute_step_by_step send map p6 =
            .ok (⟨.Complete, pattern⟩, p6, true))
    ∧ (∀ s : PickupSequence, s.is_complete = true ↔ s.current_step = .Complete)
    ∧ (∀ s : PickupSequence, s.reset.current_step = .Approach) := by
  refine ⟨rfl, rfl, ?_, ?_, fun s => rfl⟩
  · obtain ⟨p1, h1⟩ := execute_advances send map hsend (PickupSequence.new pattern) p0
    obtain ⟨p2, h2⟩ := execute_advances send map hsend ⟨.Open, pattern⟩ p1
    obtain ⟨p3, h3⟩ := execute_advances send map hsend ⟨.Grasp, pattern⟩ p2
    obtain ⟨p4, h4⟩ := execute_advances send map hsend ⟨.Lift, pattern⟩ p3
    obtain ⟨p5, h5⟩ := execute_advances send map hsend ⟨.Move, pattern⟩ p4
    obtain ⟨p6, h6⟩ := execute_advances send map hsend ⟨.Release, pattern⟩ p5
    refine ⟨p1, p2, p3, p4, p5, p6, ?_, ?_, ?_, ?_, ?_, ?_, ?_⟩
    · simp [PickupSequence.execute_step_by_step, PickupSequence.is_complete,
        PickupSequence.new, nextStep] at h1 ⊢
      simp [h1]
    · simp [PickupSequence.execute_step_by_step, PickupSequence.is_complete,
        nextStep] at h2 ⊢
      simp [h2]
    · simp [PickupSequence.execute_step_by_step, PickupSequence.is_complete,
        nextStep] at h3 ⊢
      simp [h3]
    · simp [PickupSequence.execute_step_by_step, PickupSequence.is_complete,
        nextStep] at h4 ⊢
      simp [h4]
    · simp [PickupSequence.execute_step_by_step, PickupSequence.is_complete,
        nextStep] at h5 ⊢
      simp [h5]
    · simp [PickupSequence.execute_step_by_step, PickupSequence.is_complete,
        nextStep] at h6 ⊢
      simp [h6]
    · simp [PickupSequence.execute_step_by_step, PickupSequence.is_complete]
  · intro s
    obtain ⟨st, pat⟩ := s
    cases st <;> simp [PickupSequence.is_complete]

/-- Witness for C4: the power-grasp pattern against a trivially succeeding
protocol walks the six steps in order. -/
theorem C4_pickup_sequence_six_steps_witness :
    (PickupSequence.new GripPattern.power_grasp).current_step = .Approach
    ∧ (PickupSequence.new GripPattern.power_grasp).is_complete = false
    ∧ (∃ p1 p2 p3 p4 p5 p6 : Unit,
        (PickupSequence.new GripPattern.power_grasp).execute_step_by_step
            (fun p _ _ _ => .ok p) create_default_finger_servo_map () =
          .ok (⟨.Open, GripPattern.power_grasp⟩, p1, false)
        ∧ (⟨.Open, GripPattern.power_grasp⟩ : PickupSequence).execute_step_by_step
            (fun p _ _ _ => .ok p) create_default_finger_servo_map p1 =
            .ok (⟨.Grasp, GripPattern.power_grasp⟩, p2, false)
        ∧ (⟨.Grasp, GripPattern.power_grasp⟩ : PickupSequence).execute_step_by_step
            (fun p _ _ _ => .ok p) create_default_finger_servo_map p2 =
            .ok (⟨.Lift, GripPattern.power_grasp⟩, p3, false)
        ∧ (⟨.Lift, GripPattern.power_grasp⟩ : PickupSequence).execute_step_by_step
            (fun p _ _ _ => .ok p) create_default_finger_servo_map p3 =
            .ok (⟨.Move, GripPattern.power_grasp⟩, p4, false)
        ∧ (⟨.Move, GripPattern.power_grasp⟩ : PickupSequence).execute_step_by_step
            (fun p _ _ _ => .ok p) create_default_finger_servo_map p4 =
            .ok (⟨.Release, GripPattern.power_grasp⟩, p5, false)
        ∧ (⟨.Release, GripPattern.power_grasp⟩ : PickupSequence).execute_step_by_step
            (fun p _ _ _ => .ok p) create_default_finger_servo_map p5 =
            .ok (⟨.Complete, GripPattern.power_grasp⟩, p6, true)
        ∧ (⟨.Complete, GripPattern.power_grasp⟩ : PickupSequence).execute_step_by_step
            (fun p _ _ _ => .ok p) create_default_finger_servo_map p6 =
            .ok (⟨.Complete, GripPattern.power_grasp⟩, p6, true))
    ∧ (∀ s : PickupSequence, s.is_complete = true ↔ s.current_step = .Complete)
    ∧ (∀ s : PickupSequence, s.reset.current_step = .Approach) :=
  C4_pickup_sequence_six_steps (P := Unit) (fun p _ _ _ => .ok p)
    create_default_finger_servo_map GripPattern.power_grasp ()
    (fun p _ _ _ => ⟨p, rfl⟩)

/-- C5: when the target is farther from the base than `max_reach`
(total finger link length plus palm length), the solver returns the
approach pose — all five finger angles 0 with wrist pitch/roll derived by
`atan2` toward the target and clamped to ±45° — and when the distance is
below 2 cm (for any hand whose reach is at least 2 cm) it returns the
fully open pose immediately. -/
theorem C5_solve_out_of_reach_and_near (fm : FloatMath) (ik : InverseKinematics)
    (target : Position3D) (guess : Option JointAngles) :
    (ik.fk.base_position.distance_to fm target >
        ik.fk.geometry.finger_links.total_length + ik.fk.geometry.palm_length →
      ik.solve_for_grasp_position fm target guess =
        .ok (JointAngles.open_pose.with_wrist
          (ratClamp (fm.atan2Deg (target.z - ik.fk.base_position.z)
            (fm.sqrtFn ((target.x - ik.fk.base_position.x) ^ 2
              + (target.y - ik.fk.base_position.y) ^ 2))) (-45) 45)
          (ratClamp (fm.atan2Deg (target.y - ik.fk.base_position.y)
            (target.x - ik.fk.base_position.x)) (-45) 45))
      ∧ (JointAngles.open_pose.with_wrist
          (ratClamp (fm.atan2Deg (target.z - ik.fk.base_position.z)
            (fm.sqrtFn ((target.x - ik.fk.base_position.x) ^ 2
              + (target.y - ik.fk.base_position.y) ^ 2))) (-45) 45)
          (ratClamp (fm.atan2Deg (target.y - ik.fk.base_position.y)
            (target.x - ik.fk.base_position.x)) (-45) 45)).thumb = 0
      ∧ (JointAngles.open_pose.with_wrist
          (ratClamp (fm.atan2Deg (target.z - ik.fk.base_position.z)
            (fm.sqrtFn ((target.x - ik.fk.base_position.x) ^ 2
              + (target.y - ik.fk.base_position.y) ^ 2))) (-45) 45)
          (ratClamp (fm.atan2Deg (target.y - ik.fk.base_position.y)
            (target.x - ik.fk.base_position.x)) (-45) 45)).index = 0
      ∧ (JointAngles.open_pose.with_wrist
          (ratClamp (fm.atan2Deg (target.z - ik.fk.base_position.z)
            (fm.sqrtFn ((target.x - ik.fk.base_position.x) ^ 2
              + (target.y - ik.fk.base_position.y) ^ 2))) (-45) 45)
          (ratClamp (fm.atan2Deg (target.y - ik.fk.base_position.y)
            (target.x - ik.fk.base_position.x)) (-45) 45)).middle = 0
      ∧ (JointAngles.open_pose.with_wrist
          (ratClamp (fm.atan2Deg (target.z - ik.fk.base_position.z)
            (fm.sqrtFn ((target.x - ik.fk.base_position.x) ^ 2
              + (target.y - ik.fk.base_position.y) ^ 2))) (-45) 45)
          (ratClamp (fm.atan2Deg (target.y - ik.fk.base_position.y)
            (target.x - ik.fk.base_position.x)) (-45) 45)).ring = 0
      ∧ (JointAngles.open_pose.with_wrist
          (ratClamp (fm.atan2Deg (target.z - ik.fk.base_position.z)
            (fm.sqrtFn ((target.x - ik.fk.base_position.x) ^ 2
              + (target.y - ik.fk.base_position.y) ^ 2))) (-45) 45)
          (ratClamp (fm.atan2Deg (target.y - ik.fk.base_position.y)
            (target.x - ik.fk.base_position.x)) (-45) 45)).pinky = 0)
    ∧ (2 ≤ ik.fk.geometry.finger_links.total_length + ik.fk.geometry.palm_length →
        ik.fk.base_position.distance_to fm target < 2 →
        ik.solve_for_grasp_position fm target guess = .ok JointAngles.open_pose) := by
  constructor
  · intro hfar
    refine ⟨?_, rfl, rfl, rfl, rfl, rfl⟩
    unfold InverseKinematics.solve_for_grasp_position
    rw [if_pos hfar]
    unfold InverseKinematics.approach_position
    rfl
  · intro hreach hnear
    unfold InverseKinematics.solve_for_grasp_position
    have hnot : ¬ (ik.fk.base_position.distance_to fm target >
        ik.fk.geometry.finger_links.total_length + ik.fk.geometry.palm_length) := by
      intro hgt
      linarith
    rw [if_neg hnot, if_pos hnear]

/-- Witness for C5: default geometry (reach 19.5 cm) with an identity
"square root" and an additive "atan2": a target at sq-distance 2500 takes
the approach branch, one at sq-distance 1 the fully-open branch. -/
theorem C5_solve_out_of_reach_and_near_witness :
    ((InverseKinematics.new HandGeometry.default Position3D.zero).fk.base_position.distance_to
        ⟨fun q => q, fun y x => y + x, fun _ => 1, fun _ => 0⟩ ⟨0, 0, 50⟩ >
      (InverseKinematics.new HandGeometry.default
          Position3D.zero).fk.geometry.finger_links.total_length
        + (InverseKinematics.new HandGeometry.default
            Position3D.zero).fk.geometry.palm_length)
    ∧ (InverseKinematics.new HandGeometry.default Position3D.zero).solve_for_grasp_position
        ⟨fun q => q, fun y x => y + x, fun _ => 1, fun _ => 0⟩ ⟨0, 0, 50⟩ none =
        .ok (JointAngles.open_pose.with_wrist (ratClamp (50 + 0) (-45) 45)
          (ratClamp (0 + 0) (-45) 45))
    ∧ ((InverseKinematics.new HandGeometry.default Position3D.zero).fk.base_position.distance_to
        ⟨fun q => q, fun y x => y + x, fun _ => 1, fun _ => 0⟩ ⟨0, 0, 1⟩ < 2)
    ∧ (InverseKinematics.new HandGeometry.default Position3D.zero).solve_for_grasp_position
        ⟨fun q => q, fun y x => y + x, fun _ => 1, fun _ => 0⟩ ⟨0, 0, 1⟩ none =
        .ok JointAngles.open_pose := by
  have hfar : (InverseKinematics.new HandGeometry.default
      Position3D.zero).fk.base_position.distance_to
        ⟨fun q => q, fun y x => y + x, fun _ => 1, fun _ => 0⟩ ⟨0, 0, 50⟩ >
      (InverseKinematics.new HandGeometry.default
          Position3D.zero).fk.geometry.finger_links.total_length
        + (InverseKinematics.new HandGeometry.default
            Position3D.zero).fk.geometry.palm_length := by
    norm_num [InverseKinematics.new, HandGeometry.default, Position3D.zero,
      Position3D.distance_to, FingerLinkLengths.total_length]
  have hnear : (InverseKinematics.new HandGeometry.default
      Position3D.zero).fk.base_position.distance_to
        ⟨fun q => q, fun y x => y + x, fun _ => 1, fun _ => 0⟩ ⟨0, 0, 1⟩ < 2 := by
    norm_num [InverseKinematics.new, HandGeometry.default, Position3D.zero,
      Position3D.distance_to]
  have h1 := (C5_solve_out_of_reach_and_near
    ⟨fun q => q, fun y x => y + x, fun _ => 1, fun _ => 0⟩
    (InverseKinematics.new HandGeometry.default Position3D.zero) ⟨0, 0, 50⟩ none).1 hfar
  have h2 := (C5_solve_out_of_reach_and_near
    ⟨fun q => q, fun y x => y + x, fun _ => 1, fun _ => 0⟩
    (InverseKinematics.new HandGeometry.default Position3D.zero) ⟨0, 0, 1⟩ none).2
    (by norm_num [InverseKinematics.new, HandGeometry.default,
      FingerLinkLengths.total_length]) hnear
  refine ⟨hfar, ?_, hnear, h2⟩
  have := h1.1
  simpa [InverseKinematics.new, Position3D.zero] using this

/-- One unfolding of the IK iteration loop: when the error is not below
tolerance, the iteration applies the finger update (with `delta_z` the
z-error to the grasp center and the decaying learning rate) followed by
the wrist update, and recurses. -/
theorem ikIter_step (fm : FloatMath) (ik : InverseKinematics) (target : Position3D)
    (fuel iter : ℕ) (current : JointAngles)
    (h : ¬ target.distance_to fm (ik.fk.compute_grasp_center fm current) < ik.tolerance) :
    InverseKinematics.ikIter fm ik target (fuel + 1) iter current =
      InverseKinematics.ikIter fm ik target fuel (iter + 1)
        (InverseKinematics.ikWristUpdate
          (InverseKinematics.ikFingerUpdate current
            (target.z - (ik.fk.compute_grasp_center fm current).z)
            ((1/10) * (1 - (iter : ℚ) / (ik.max_iterations : ℚ))))
          (target.x - (ik.fk.compute_grasp_center fm current).x)
          (target.y - (ik.fk.compute_grasp_center fm current).y)
          ((1/10) * (1 - (iter : ℚ) / (ik.max_iterations : ℚ)))) := by
  rw [InverseKinematics.ikIter]
  simp only []
  rw [if_neg h]

/-- Clamping `f - d` to `[0, 90]` cannot exceed `f` when `f ∈ [0, 90]`
and `d ≥ 0`. -/
theorem ratClamp_sub_le_self (f d : ℚ) (hd : 0 ≤ d) (h0 : 0 ≤ f) (h90 : f ≤ 90) :
    ratClamp (f - d) 0 90 ≤ f := by
  unfold ratClamp
  split_ifs with ha hb
  · exact h0
  · linarith
  · linarith

/-- Clamping `f + d` to `[0, 90]` cannot fall below `f` when `f ∈ [0, 90]`
and `d ≥ 0`. -/
theorem self_le_ratClamp_add (f d : ℚ) (hd : 0 ≤ d) (h0 : 0 ≤ f) (h90 : f ≤ 90) :
    f ≤ ratClamp (f + d) 0 90 := by
  unfold ratClamp
  split_ifs with ha hb
  · linarith
  · linarith
  · linarith

/-- C6 counterexample: default-geometry solver, base at the origin,
initial guess all-45°, target 3 cm farther in z than the current grasp
center (`delta_z = 3 > 0`).  The first loop iteration DECREASES every
finger angle from 45 to 42 (the hand opens), refuting the claim that the
fingers close (angles increase) when the target is farther in z. -/
theorem C6_counterexample :
    ((52 : ℚ)/5 - (52 : ℚ)/5 = 0 ∧ (38 : ℚ)/5 - (23 : ℚ)/5 = 3 ∧ (3 : ℚ) > 0)
    ∧ ((InverseKinematics.new HandGeometry.default Position3D.zero).fk.compute_grasp_center
        ⟨fun q => if q = 9 then 3 else if q = 4157/25 then 1289/100 else q, fun _ _ => 0,
          fun _ => 1, fun _ => 0⟩ (JointAngles.new 45 45 45 45 45) = ⟨52/5, 3/5, 23/5⟩)
    ∧ ((InverseKinematics.new HandGeometry.default Position3D.zero).solve_for_grasp_position
        ⟨fun q => if q = 9 then 3 else if q = 4157/25 then 1289/100 else q, fun _ _ => 0,
          fun _ => 1, fun _ => 0⟩ ⟨52/5, 3/5, 38/5⟩ (some (JointAngles.new 45 45 45 45 45)) =
        .ok (InverseKinematics.ikIter
          ⟨fun q => if q = 9 then 3 else if q = 4157/25 then 1289/100 else q, fun _ _ => 0,
            fun _ => 1, fun _ => 0⟩
          (InverseKinematics.new HandGeometry.default Position3D.zero)
          ⟨52/5, 3/5, 38/5⟩ 100 0 (JointAngles.new 45 45 45 45 45)))
    ∧ (InverseKinematics.ikIter
        ⟨fun q => if q = 9 then 3 else if q = 4157/25 then 1289/100 else q, fun _ _ => 0,
          fun _ => 1, fun _ => 0⟩
        (InverseKinematics.new HandGeometry.default Position3D.zero)
        ⟨52/5, 3/5, 38/5⟩ 100 0 (JointAngles.new 45 45 45 45 45) =
      InverseKinematics.ikIter
        ⟨fun q => if q = 9 then 3 else if q = 4157/25 then 1289/100 else q, fun _ _ => 0,
          fun _ => 1, fun _ => 0⟩
        (InverseKinematics.new HandGeometry.default Position3D.zero)
        ⟨52/5, 3/5, 38/5⟩ 99 1 (JointAngles.new 42 42 42 42 42))
    ∧ (42 : ℚ) < 45 := by
  have hgc : ((InverseKinematics.new HandGeometry.default Position3D.zero).fk.compute_grasp_center
      ⟨fun q => if q = 9 then 3 else if q = 4157/25 then 1289/100 else q, fun _ _ => 0,
        fun _ => 1, fun _ => 0⟩ (JointAngles.new 45 45 45 45 45)) = ⟨52/5, 3/5, 23/5⟩ := by
    norm_num [InverseKinematics.new, HandGeometry.default, Position3D.zero,
      ForwardKinematics.compute_grasp_center, ForwardKinematics.compute_all_finger_tips,
      ForwardKinematics.compute_finger_tip_position, ForwardKinematics.compute_palm_center,
      FingerLinkLengths.total_length, JointAngles.new, List.enum]
  refine ⟨⟨by norm_num, by norm_num, by norm_num⟩, hgc, ?_, ?_, by norm_num⟩
  · unfold InverseKinematics.solve_for_grasp_position
    norm_num [InverseKinematics.new, HandGeometry.default, Position3D.zero,
      Position3D.distance_to, FingerLinkLengths.total_length]
  · show InverseKinematics.ikIter _ _ _ (99 + 1) 0 _ = _
    rw [ikIter_step]
    · rw [hgc]
      norm_num [InverseKinematics.ikFingerUpdate, InverseKinematics.ikWristUpdate,
        JointAngles.new, ratClamp, InverseKinematics.new]
    · rw [hgc]
      norm_num [Position3D.distance_to, InverseKinematics.new]

/-- C6 (amended): in every iteration of the solver loop all five
finger angles receive the same update of magnitude
`|delta_z| · learning_rate · 10`, clamped to `[0, 90]`, where `delta_z`
is the z-error between target and current grasp center — but the
direction is the REVERSE of the claim: the fingers OPEN (angles do not
increase) when the target is farther in z (`delta_z > 0`) and CLOSE
(angles do not decrease) when it is nearer. -/
theorem C6_ik_finger_update_uniform_reversed (fm : FloatMath) (ik : InverseKinematics)
    (target : Position3D) (fuel iter : ℕ) (current : JointAngles) (dz lr : ℚ) :
    (¬ target.distance_to fm (ik.fk.compute_grasp_center fm current) < ik.tolerance →
      InverseKinematics.ikIter fm ik target (fuel + 1) iter current =
        InverseKinematics.ikIter fm ik target fuel (iter + 1)
          (InverseKinematics.ikWristUpdate
            (InverseKinematics.ikFingerUpdate current
              (target.z - (ik.fk.compute_grasp_center fm current).z)
              ((1/10) * (1 - (iter : ℚ) / (ik.max_iterations : ℚ))))
            (target.x - (ik.fk.compute_grasp_center fm current).x)
            (target.y - (ik.fk.compute_grasp_center fm current).y)
            ((1/10) * (1 - (iter : ℚ) / (ik.max_iterations : ℚ)))))
    ∧ (dz > 0 →
        (InverseKinematics.ikFingerUpdate current dz lr).thumb
            = ratClamp (current.thumb - dz * lr * 10) 0 90
        ∧ (InverseKinematics.ikFingerUpdate current dz lr).index
            = ratClamp (current.index - dz * lr * 10) 0 90
        ∧ (InverseKinematics.ikFingerUpdate current dz lr).middle
            = ratClamp (current.middle - dz * lr * 10) 0 90
        ∧ (InverseKinematics.ikFingerUpdate current dz lr).ring
            = ratClamp (current.ring - dz * lr * 10) 0 90
        ∧ (InverseKinematics.ikFingerUpdate current dz lr).pinky
            = ratClamp (current.pinky - dz * lr * 10) 0 90)
    ∧ (¬ dz > 0 →
        (InverseKinematics.ikFingerUpdate current dz lr).thumb
            = ratClamp (current.thumb + |dz| * lr * 10) 0 90
        ∧ (InverseKinematics.ikFingerUpdate current dz lr).index
            = ratClamp (current.index + |dz| * lr * 10) 0 90
        ∧ (InverseKinematics.ikFingerUpdate current dz lr).middle
            = ratClamp (current.middle + |dz| * lr * 10) 0 90
        ∧ (InverseKinematics.ikFingerUpdate current dz lr).ring
            = ratClamp (current.ring + |dz| * lr * 10) 0 90
        ∧ (InverseKinematics.ikFingerUpdate current dz lr).pinky
            = ratClamp (current.pinky + |dz| * lr * 10) 0 90)
    ∧ (0 ≤ lr → 0 ≤ current.thumb → current.thumb ≤ 90 → dz > 0 →
        (InverseKinematics.ikFingerUpdate current dz lr).thumb ≤ current.thumb)
    ∧ (0 ≤ lr → 0 ≤ current.thumb → current.thumb ≤ 90 → ¬ dz > 0 →
        current.thumb ≤ (InverseKinematics.ikFingerUpdate current dz lr).thumb) := by
  refine ⟨ikIter_step fm ik target fuel iter current, ?_, ?_, ?_, ?_⟩
  · intro hdz
    unfold InverseKinematics.ikFingerUpdate
    rw [if_pos hdz]
    exact ⟨rfl, rfl, rfl, rfl, rfl⟩
  · intro hdz
    unfold InverseKinematics.ikFingerUpdate
    rw [if_neg hdz]
    exact ⟨rfl, rfl, rfl, rfl, rfl⟩
  · intro hlr h0 h90 hdz
    unfold InverseKinematics.ikFingerUpdate
    rw [if_pos hdz]
    exact ratClamp_sub_le_self _ _
      (mul_nonneg (mul_nonneg (le_of_lt hdz) hlr) (by norm_num)) h0 h90
  · intro hlr h0 h90 hdz
    unfold InverseKinematics.ikFingerUpdate
    rw [if_neg hdz]
    exact self_le_ratClamp_add _ _
      (mul_nonneg (mul_nonneg (abs_nonneg dz) hlr) (by norm_num)) h0 h90

/-- Witness for the amended C6 at a concrete solver state (all-45° hand,
`delta_z = ±3`, learning rate 1/10, constant-5 "square root" so the error
check fails). -/
theorem C6_ik_finger_update_uniform_reversed_witness :
    (InverseKinematics.ikIter ⟨fun _ => 5, fun _ _ => 0, fun _ => 1, fun _ => 0⟩
        (InverseKinematics.new HandGeometry.default Position3D.zero)
        ⟨0, 0, 0⟩ (0 + 1) 0 (JointAngles.new 45 45 45 45 45) =
      InverseKinematics.ikIter ⟨fun _ => 5, fun _ _ => 0, fun _ => 1, fun _ => 0⟩
        (InverseKinematics.new HandGeometry.default Position3D.zero)
        ⟨0, 0, 0⟩ 0 (0 + 1)
        (InverseKinematics.ikWristUpdate
          (InverseKinematics.ikFingerUpdate (JointAngles.new 45 45 45 45 45)
            ((Position3D.mk 0 0 0).z -
              ((InverseKinematics.new HandGeometry.default Position3D.zero).fk.compute_grasp_center
                ⟨fun _ => 5, fun _ _ => 0, fun _ => 1, fun _ => 0⟩
                (JointAngles.new 45 45 45 45 45)).z)
            ((1/10) * (1 - ((0 : ℕ) : ℚ) /
              (((InverseKinematics.new HandGeometry.default
                  Position3D.zero).max_iterations : ℕ) : ℚ))))
          ((Position3D.mk 0 0 0).x -
            ((InverseKinematics.new HandGeometry.default Position3D.zero).fk.compute_grasp_center
              ⟨fun _ => 5, fun _ _ => 0, fun _ => 1, fun _ => 0⟩
              (JointAngles.new 45 45 45 45 45)).x)
          ((Position3D.mk 0 0 0).y -
            ((InverseKinematics.new HandGeometry.default Position3D.zero).fk.compute_grasp_center
              ⟨fun _ => 5, fun _ _ => 0, fun _ => 1, fun _ => 0⟩
              (JointAngles.new 45 45 45 45 45)).y)
          ((1/10) * (1 - ((0 : ℕ) : ℚ) /
            (((InverseKinematics.new HandGeometry.default
                Position3D.zero).max_iterations : ℕ) : ℚ)))))
    ∧ (InverseKinematics.ikFingerUpdate (JointAngles.new 45 45 45 45 45) 3 (1/10)).thumb
        = ratClamp ((JointAngles.new 45 45 45 45 45).thumb - 3 * (1/10) * 10) 0 90
    ∧ (InverseKinematics.ikFingerUpdate (JointAngles.new 45 45 45 45 45) (-3) (1/10)).thumb
        = ratClamp ((JointAngles.new 45 45 45 45 45).thumb + |(-3 : ℚ)| * (1/10) * 10) 0 90
    ∧ (InverseKinematics.ikFingerUpdate (JointAngles.new 45 45 45 45 45) 3 (1/10)).thumb
        ≤ (JointAngles.new 45 45 45 45 45).thumb
    ∧ (JointAngles.new 45 45 45 45 45).thumb
        ≤ (InverseKinematics.ikFingerUpdate (JointAngles.new 45 45 45 45 45) (-3) (1/10)).thumb := by
  have h1 := C6_ik_finger_update_uniform_reversed
    ⟨fun _ => 5, fun _ _ => 0, fun _ => 1, fun _ => 0⟩
    (InverseKinematics.new HandGeometry.default Position3D.zero)
    ⟨0, 0, 0⟩ 0 0 (JointAngles.new 45 45 45 45 45) 3 (1/10)
  have h2 := C6_ik_finger_update_uniform_reversed
    ⟨fun _ => 5, fun _ _ => 0, fun _ => 1, fun _ => 0⟩
    (InverseKinematics.new HandGeometry.default Position3D.zero)
    ⟨0, 0, 0⟩ 0 0 (JointAngles.new 45 45 45 45 45) (-3) (1/10)
  refine ⟨h1.1 ?_, (h1.2.1 (by norm_num)).1, (h2.2.2.1 (by norm_num)).1,
    h1.2.2.2.1 (by norm_num) (by norm_num [JointAngles.new]) (by norm_num [JointAngles.new])
      (by norm_num),
    h2.2.2.2.2 (by norm_num) (by norm_num [JointAngles.new]) (by norm_num [JointAngles.new])
      (by norm_num)⟩
  norm_num [Position3D.distance_to, InverseKinematics.new]

/-- The key `scoreKey` written without its `let` bindings (definitional). -/
theorem scoreKey_closed_form (cx cy : ℤ) (o : DetectedObject) :
    scoreKey (cx, cy) o =
      f32AsI32 (o.confidence * 100) -
        ((Nat.sqrt ((o.bounding_box.center.1 - cx).natAbs * (o.bounding_box.center.1 - cx).natAbs
            + (o.bounding_box.center.2 - cy).natAbs * (o.bounding_box.center.2 - cy).natAbs)
          / 10 : ℕ) : ℤ) := rfl

/-- Score of the spec's object A (confidence 0.92, 200 px off center). -/
theorem scoreKey_exA : scoreKey (320, 240) ⟨"A", 92/100, ⟨120, 240, 0, 0⟩, 0⟩ = 72 := by
  have hsq : Nat.sqrt 40000 = 200 := by
    rw [show (40000 : ℕ) = 200 * 200 from by norm_num]
    exact Nat.sqrt_eq 200
  have habs1 : (((⟨"A", 92/100, ⟨120, 240, 0, 0⟩, 0⟩ : DetectedObject)).bounding_box.center.1
      - 320).natAbs = 200 := by decide
  have habs2 : (((⟨"A", 92/100, ⟨120, 240, 0, 0⟩, 0⟩ : DetectedObject)).bounding_box.center.2
      - 240).natAbs = 0 := by decide
  rw [scoreKey_closed_form, habs1, habs2,
    show (200 * 200 + 0 * 0 : ℕ) = 40000 from by norm_num, hsq]
  norm_num [f32AsI32]

/-- Score of the spec's object B (confidence 0.50, 10 px off center). -/
theorem scoreKey_exB : scoreKey (320, 240) ⟨"B", 1/2, ⟨330, 240, 0, 0⟩, 0⟩ = 49 := by
  have hsq : Nat.sqrt 100 = 10 := by
    rw [show (100 : ℕ) = 10 * 10 from by norm_num]
    exact Nat.sqrt_eq 10
  have habs1 : (((⟨"B", 1/2, ⟨330, 240, 0, 0⟩, 0⟩ : DetectedObject)).bounding_box.center.1
      - 320).natAbs = 10 := by decide
  have habs2 : (((⟨"B", 1/2, ⟨330, 240, 0, 0⟩, 0⟩ : DetectedObject)).bounding_box.center.2
      - 240).natAbs = 0 := by decide
  rw [scoreKey_closed_form, habs1, habs2,
    show (10 * 10 + 0 * 0 : ℕ) = 100 from by norm_num, hsq]
  norm_num [f32AsI32]

/-- The spec example: A (score 72) beats B (score 49). -/
theorem select_exAB :
    select_best_object [⟨"A", 92/100, ⟨120, 240, 0, 0⟩, 0⟩, ⟨"B", 1/2, ⟨330, 240, 0, 0⟩, 0⟩]
      (320, 240) = some ⟨"A", 92/100, ⟨120, 240, 0, 0⟩, 0⟩ := by
  simp only [select_best_object, List.isEmpty_cons, List.foldl_cons, List.foldl_nil,
    scoreKey_exA, scoreKey_exB]
  norm_num

/-- The left fold of `select_best_object`, started on a singleton
accumulator, returns the last element attaining the maximal key. -/
theorem foldl_last_max (g : DetectedObject → ℤ) :
    ∀ (l : List DetectedObject) (b : DetectedObject),
      ∃ o l₁ l₂,
        l.foldl (fun best o =>
          match best with
          | none => some o
          | some b' => if g b' ≤ g o then some o else some b') (some b) = some o
        ∧ b :: l = l₁ ++ o :: l₂
        ∧ (∀ x ∈ b :: l, g x ≤ g o)
        ∧ (∀ x ∈ l₂, g x < g o) := by
  intro l
  induction l with
  | nil =>
      intro b
      exact ⟨b, [], [], rfl, rfl, by simp, by simp⟩
  | cons c t ih =>
      intro b
      by_cases hbc : g b ≤ g c
      · obtain ⟨o, l₁, l₂, hfold, hsplit, hmax, hlast⟩ := ih c
        refine ⟨o, b :: l₁, l₂, ?_, ?_, ?_, hlast⟩
        · simpa [List.foldl_cons, hbc] using hfold
        · simp [hsplit]
        · intro x hx
          rcases List.mem_cons.mp hx with hxb | hxt
          · subst hxb
            exact le_trans hbc (hmax c (List.mem_cons_self c t))
          · exact hmax x hxt
      · obtain ⟨o, l₁, l₂, hfold, hsplit, hmax, hlast⟩ := ih b
        cases l₁ with
        | nil =>
            simp only [List.nil_append] at hsplit
            obtain ⟨hob, hl₂⟩ : b = o ∧ t = l₂ := by
              constructor
              · exact (List.cons_eq_cons.mp hsplit).1
              · exact (List.cons_eq_cons.mp hsplit).2
            refine ⟨o, [], c :: t, ?_, ?_, ?_, ?_⟩
            · simpa [List.foldl_cons, hbc] using hfold
            · simp [hob]
            · intro x hx
              rcases List.mem_cons.mp hx with hxb | hxt
              · subst hxb; rw [← hob]
              · rcases List.mem_cons.mp hxt with hxc | hxt2
                · subst hxc
                  rw [← hob]
                  exact le_of_lt (lt_of_not_le hbc)
                · exact hmax x (List.mem_cons.mpr (Or.inr (hl₂ ▸ hxt2)))
            · intro x hx
              rcases List.mem_cons.mp hx with hxc | hxt
              · subst hxc
                rw [← hob]
                exact lt_of_not_le hbc
              · exact hlast x (hl₂ ▸ hxt)
        | cons d t₁ =>
            obtain ⟨hdb, ht⟩ : b = d ∧ t = t₁ ++ o :: l₂ := by
              constructor
              · exact (List.cons_eq_cons.mp hsplit).1
              · exact (List.cons_eq_cons.mp hsplit).2
            refine ⟨o, b :: c :: t₁, l₂, ?_, ?_, ?_, hlast⟩
            · simpa [List.foldl_cons, hbc] using hfold
            · simp [ht]
            · intro x hx
              rcases List.mem_cons.mp hx with hxb | hxt
              · subst hxb
                exact hmax _ (List.mem_cons_self _ t)
              · rcases List.mem_cons.mp hxt with hxc | hxt2
                · subst hxc
                  exact le_trans (le_of_lt (lt_of_not_le hbc))
                    (hmax b (List.mem_cons_self b t))
                · exact hmax x (List.mem_cons.mpr (Or.inr hxt2))

/-- C8 counterexample: two objects at the frame center, the first with
confidence 0.925 (real score 92.5), the second with confidence 0.92 (real
score 92).  The claim's real-valued score formula picks the first, but
the code truncates both keys to 92 (`as i32`) and `max_by_key` keeps the
LAST maximal element, so the second is returned. -/
theorem C8_counterexample :
    select_best_object
      [⟨"A", 37/40, ⟨0, 0, 0, 0⟩, 0⟩, ⟨"B", 92/100, ⟨0, 0, 0, 0⟩, 0⟩] (0, 0)
      = some ⟨"B", 92/100, ⟨0, 0, 0, 0⟩, 0⟩
    ∧ (37/40 : ℚ) * 100 - (0 : ℚ) / 10 > (92/100 : ℚ) * 100 - (0 : ℚ) / 10
    ∧ (⟨"B", 92/100, ⟨0, 0, 0, 0⟩, 0⟩ : DetectedObject)
        ≠ ⟨"A", 37/40, ⟨0, 0, 0, 0⟩, 0⟩ := by
  have habsA1 : (((⟨"A", 37/40, ⟨0, 0, 0, 0⟩, 0⟩ : DetectedObject)).bounding_box.center.1
      - 0).natAbs = 0 := by decide
  have habsA2 : (((⟨"A", 37/40, ⟨0, 0, 0, 0⟩, 0⟩ : DetectedObject)).bounding_box.center.2
      - 0).natAbs = 0 := by decide
  have habsB1 : (((⟨"B", 92/100, ⟨0, 0, 0, 0⟩, 0⟩ : DetectedObject)).bounding_box.center.1
      - 0).natAbs = 0 := by decide
  have habsB2 : (((⟨"B", 92/100, ⟨0, 0, 0, 0⟩, 0⟩ : DetectedObject)).bounding_box.center.2
      - 0).natAbs = 0 := by decide
  have hsq : Nat.sqrt (0 * 0 + 0 * 0) = 0 := by
    rw [show (0 * 0 + 0 * 0 : ℕ) = 0 * 0 from by norm_num]
    exact Nat.sqrt_eq 0
  have hA : scoreKey (0, 0) ⟨"A", 37/40, ⟨0, 0, 0, 0⟩, 0⟩ = 92 := by
    rw [scoreKey_closed_form, habsA1, habsA2, hsq]
    norm_num [f32AsI32]
  have hB : scoreKey (0, 0) ⟨"B", 92/100, ⟨0, 0, 0, 0⟩, 0⟩ = 92 := by
    rw [scoreKey_closed_form, habsB1, habsB2, hsq]
    norm_num [f32AsI32]
  refine ⟨?_, by norm_num, ?_⟩
  · simp only [select_best_object, List.isEmpty_cons, List.foldl_cons, List.foldl_nil,
      hA, hB]
    norm_num
  · intro hcontra
    have : ("B" : String) = "A" := congrArg DetectedObject.label hcontra
    simp at this

/-- C8 (amended): on a non-empty object list, `select_best_object`
returns an element whose integer-truncated key
`(confidence·100 as i32) − (⌊distance-to-center⌋/10)` is maximal, and
among equal keys the LAST such element (Rust `max_by_key` semantics), not
the maximizer of the exact real-valued score; on the spec's example the
integer keys are 72 for A and 49 for B and A is selected. -/
theorem C8_select_best_object_last_max (objects : List DetectedObject)
    (fc : ℤ × ℤ) (h : objects ≠ []) :
    (∃ o l₁ l₂, select_best_object objects fc = some o
      ∧ objects = l₁ ++ o :: l₂
      ∧ (∀ x ∈ objects, scoreKey fc x ≤ scoreKey fc o)
      ∧ (∀ x ∈ l₂, scoreKey fc x < scoreKey fc o))
    ∧ scoreKey (320, 240) ⟨"A", 92/100, ⟨120, 240, 0, 0⟩, 0⟩ = 72
    ∧ scoreKey (320, 240) ⟨"B", 1/2, ⟨330, 240, 0, 0⟩, 0⟩ = 49
    ∧ select_best_object
        [⟨"A", 92/100, ⟨120, 240, 0, 0⟩, 0⟩, ⟨"B", 1/2, ⟨330, 240, 0, 0⟩, 0⟩]
        (320, 240) = some ⟨"A", 92/100, ⟨120, 240, 0, 0⟩, 0⟩ := by
  refine ⟨?_, scoreKey_exA, scoreKey_exB, select_exAB⟩
  cases objects with
  | nil => exact absurd rfl h
  | cons x xs =>
      obtain ⟨o, l₁, l₂, hfold, hsplit, hmax, hlast⟩ := foldl_last_max (scoreKey fc) xs x
      refine ⟨o, l₁, l₂, ?_, hsplit, hmax, hlast⟩
      simpa [select_best_object] using hfold

/-- Witness for the amended C8 at the spec's two-object scene. -/
theorem C8_select_best_object_last_max_witness :
    (∃ o l₁ l₂,
      select_best_object
        [⟨"A", 92/100, ⟨120, 240, 0, 0⟩, 0⟩, ⟨"B", 1/2, ⟨330, 240, 0, 0⟩, 0⟩]
        (320, 240) = some o
      ∧ [(⟨"A", 92/100, ⟨120, 240, 0, 0⟩, 0⟩ : DetectedObject),
          ⟨"B", 1/2, ⟨330, 240, 0, 0⟩, 0⟩] = l₁ ++ o :: l₂
      ∧ (∀ x ∈ [(⟨"A", 92/100, ⟨120, 240, 0, 0⟩, 0⟩ : DetectedObject),
          ⟨"B", 1/2, ⟨330, 240, 0, 0⟩, 0⟩],
          scoreKey (320, 240) x ≤ scoreKey (320, 240) o)
      ∧ (∀ x ∈ l₂, scoreKey (320, 240) x < scoreKey (320, 240) o))
    ∧ scoreKey (320, 240) ⟨"A", 92/100, ⟨120, 240, 0, 0⟩, 0⟩ = 72
    ∧ scoreKey (320, 240) ⟨"B", 1/2, ⟨330, 240, 0, 0⟩, 0⟩ = 49
    ∧ select_best_object
        [⟨"A", 92/100, ⟨120, 240, 0, 0⟩, 0⟩, ⟨"B", 1/2, ⟨330, 240, 0, 0⟩, 0⟩]
        (320, 240) = some ⟨"A", 92/100, ⟨120, 240, 0, 0⟩, 0⟩ :=
  C8_select_best_object_last_max
    [⟨"A", 92/100, ⟨120, 240, 0, 0⟩, 0⟩, ⟨"B", 1/2, ⟨330, 240, 0, 0⟩, 0⟩]
    (320, 240) (List.cons_ne_nil _ _)

/-- C2 counterexample: with no active sequence, EMG state `Triggered`
(so the detector is invoked) and a failing detector, `run_step` RETURNS
the detector's error — it is not caught — and leaves the EMG state at
`Executing`, not `Idle`. -/
theorem C2_counterexample :
    (VisionController.run_step (P := Unit) (fun p _ _ _ => .ok p)
        create_default_finger_servo_map
        (.error (.Communication "detector offline")) (640, 480) none 0
        ⟨⟨600, 200, none, .Triggered⟩, none, true⟩ ()).2 =
      .error (.Communication "detector offline")
    ∧ (VisionController.run_step (P := Unit) (fun p _ _ _ => .ok p)
        create_default_finger_servo_map
        (.error (.Communication "detector offline")) (640, 480) none 0
        ⟨⟨600, 200, none, .Triggered⟩, none, true⟩ ()).1.emg.state = .Executing :=
  ⟨rfl, rfl⟩

/-- Lemma: `poll` only reports a trigger from the `Idle` state. -/
theorem poll_true_state (r : EmgReader) (v : Option ℕ) (now : ℕ)
    (h : (r.poll v now).2 = true) : r.state = .Idle := by
  cases hv : v with
  | none => rw [hv] at h; exact absurd h (by simp [EmgReader.poll])
  | some value =>
      rw [hv] at h
      have h2 : (r.inject_value value now).2 = true := h
      unfold EmgReader.inject_value at h2
      by_cases hg : value ≥ r.threshold ∧ r.state = .Idle
      · exact hg.2
      · rw [if_neg hg] at h2
        exact absurd h2 (by simp)

/-- C2 (amended): a detector error is NOT caught by the scripted
control loop: when the loop reaches the `detect_objects` call (manual
`Triggered` state in `run_step`, or a firing poll in `run`'s iteration)
and the detector fails, the error propagates out of `run_step` / out of
`run`'s loop body — aborting the loop — and the EMG state is left at
`Executing` rather than being reset to `Idle`. -/
theorem C2_detector_error_propagates {P : Type} (send : SendFn P)
    (map : List (String × ℕ)) (e : HandError) (frameSize : ℤ × ℤ)
    (pollValue : Option ℕ) (now : ℕ) (vc : VisionController) (p : P) :
    (vc.emg.state = .Triggered →
      VisionController.run_step send map (.error e) frameSize pollValue now vc p =
        (vc.setEmgState .Executing, .error e))
    ∧ ((vc.emg.poll pollValue now).2 = true →
      VisionController.runIter send map (.error e) frameSize pollValue now vc p =
        (({ vc with emg := (vc.emg.poll pollValue now).1 }).setEmgState .Executing,
          .error e)) := by
  constructor
  · intro htrig
    have hne : vc.emg.state ≠ .Executing := by rw [htrig]; simp
    cases hcs : vc.current_sequence with
    | none =>
        simp [VisionController.run_step, hcs, VisionController.run_step_trigger, htrig,
          VisionController.detectPhase, VisionController.setEmgState]
    | some seq =>
        simp [VisionController.run_step, hcs, hne, VisionController.run_step_trigger,
          htrig, VisionController.detectPhase, VisionController.setEmgState]
  · intro hpoll
    have hidle : vc.emg.state = .Idle := poll_true_state _ _ _ hpoll
    have hne : vc.emg.state ≠ .Executing := by rw [hidle]; simp
    rcases hp : vc.emg.poll pollValue now with ⟨emg', trig⟩
    rw [hp] at hpoll
    simp only at hpoll
    subst hpoll
    cases hcs : vc.current_sequence with
    | none =>
        simp [VisionController.runIter, hcs, VisionController.runIterPoll, hp,
          VisionController.detectPhase, VisionController.setEmgState]
    | some seq =>
        simp [VisionController.runIter, hcs, hne, VisionController.runIterPoll, hp,
          VisionController.detectPhase, VisionController.setEmgState]

/-- Witness for the amended C2: a `Triggered` reader for the `run_step`
half, and an `Idle` reader fed the value 650 against threshold 600 for
the `run` half. -/
theorem C2_detector_error_propagates_witness :
    ((⟨⟨600, 200, none, .Triggered⟩, none, true⟩ : VisionController).emg.state = .Triggered
      → VisionController.run_step (P := Unit) (fun p _ _ _ => .ok p)
          create_default_finger_servo_map (.error (.Communication "detector offline"))
          (640, 480) none 0 ⟨⟨600, 200, none, .Triggered⟩, none, true⟩ () =
        ((⟨⟨600, 200, none, .Triggered⟩, none, true⟩ : VisionController).setEmgState
            .Executing, .error (.Communication "detector offline")))
    ∧ ((⟨⟨600, 200, none, .Triggered⟩, none, true⟩ : VisionController).emg.state = .Triggered)
    ∧ (((⟨⟨600, 200, none, .Idle⟩, none, true⟩ : VisionController).emg.poll
          (some 650) 0).2 = true
      → VisionController.runIter (P := Unit) (fun p _ _ _ => .ok p)
          create_default_finger_servo_map (.error (.Communication "detector offline"))
          (640, 480) (some 650) 0 ⟨⟨600, 200, none, .Idle⟩, none, true⟩ () =
        (({ (⟨⟨600, 200, none, .Idle⟩, none, true⟩ : VisionController) with
              emg := ((⟨⟨600, 200, none, .Idle⟩, none, true⟩ : VisionController).emg.poll
                (some 650) 0).1 }).setEmgState .Executing,
          .error (.Communication "detector offline")))
    ∧ (((⟨⟨600, 200, none, .Idle⟩, none, true⟩ : VisionController).emg.poll
          (some 650) 0).2 = true) :=
  ⟨(C2_detector_error_propagates (P := Unit) (fun p _ _ _ => .ok p)
      create_default_finger_servo_map (.Communication "detector offline")
      (640, 480) none 0 ⟨⟨600, 200, none, .Triggered⟩, none, true⟩ ()).1,
    rfl,
    (C2_detector_error_propagates (P := Unit) (fun p _ _ _ => .ok p)
      create_default_finger_servo_map (.Communication "detector offline")
      (640, 480) (some 650) 0 ⟨⟨600, 200, none, .Idle⟩, none, true⟩ ()).2,
    rfl⟩

/-- Witness for C3 at threshold 600, injected value 650, time 7. -/
theorem C3_inject_value_debounce_witness :
    ((EmgReader.new 600).inject_value 650 7).2 = true
    ∧ ((EmgReader.new 600).inject_value 650 7).1 =
        { EmgReader.new 600 with state := .Triggered, last_trigger := some 7 }
    ∧ (((EmgReader.new 600).inject_value 650 7).1).state = .Triggered :=
  have h := C3_inject_value_debounce (EmgReader.new 600) 650 7
  have htrue : ((EmgReader.new 600).inject_value 650 7).2 = true :=
    h.1.mpr ⟨by decide, rfl, Or.inl rfl⟩
  ⟨htrue, h.2.1 htrue, h.2.2.2.2.1⟩
